import Mathlib

/-!
Kettlebell jerk tracker — verification of the core pipeline

Shallow embedding of the three core components of the kettlebell workout
counter: the landmark smoothing filter (`src/utils/poseDetection.ts`), the
jerk phase-classification state machine (`jerkFSM`), and the form analysis
engine (`src/utils/formAnalysis.ts`).

Conventions of the embedding:
* TypeScript `number` is modelled by `ℚ` (coordinates, scores, timestamps,
  thresholds); the integral repetition counter by `ℕ` and the form score
  by `ℤ`.
* `Math.atan2` composed with the radians→degrees conversion is a
  transcendental primitive; it is kept abstract as a parameter
  `atan2deg : ℚ → ℚ → ℚ` (first argument the y-difference, second the
  x-difference, exactly as `Math.atan2(dy, dx) * 180 / Math.PI`).  All
  theorems are proved for every such function.
* The module-level mutable FSM singleton `jerkFSMState` of the source is
  modelled by explicit state passing: every mutating helper takes the
  state and returns the updated state, and `Date.now()` becomes an
  explicit `now` argument.
* Optional TypeScript fields (`score?`, `name?`) become `Option ℚ` /
  `Option String`; the JavaScript coercion `(kp.score || 0)` becomes
  `scoreOrZero`, and `(kp.score || d)` (where a present score of `0` is
  falsy) becomes `scoreOrDefault`.
-/

namespace Kettlebell

/-- A 2D point, the argument type of the three-point angle function. -/
structure Pt where
  x : ℚ
  y : ℚ
deriving DecidableEq, Repr

/-- `KeyPoint` from `src/types`: `{x, y, score?, name?}`. -/
structure KeyPoint where
  x : ℚ
  y : ℚ
  score : Option ℚ
  name : Option String
deriving DecidableEq, Repr

/-- `Pose` from `src/types`: `{keypoints, score?}`. -/
structure Pose where
  keypoints : List KeyPoint
  score : Option ℚ
deriving DecidableEq, Repr

/-- The 2D position of a keypoint. -/
def KeyPoint.pt (kp : KeyPoint) : Pt := ⟨kp.x, kp.y⟩

/-- JavaScript `kp.score || 0`: an absent (or zero) score reads as `0`. -/
def scoreOrZero (kp : KeyPoint) : ℚ := kp.score.getD 0

/-- JavaScript `o || d` on an optional number: `undefined` and the falsy
value `0` both fall back to the default `d`. -/
def scoreOrDefault (o : Option ℚ) (d : ℚ) : ℚ :=
  match o with
  | some v => if v = 0 then d else v
  | none => d

/-- `getKeypoint` (poseDetection.ts): first keypoint whose `name` equals
the requested name; an absent `name` never matches. -/
def getKeypoint (pose : Pose) (keypointName : String) : Option KeyPoint :=
  pose.keypoints.find? fun kp => decide (kp.name = some keypointName)

/-- `calculateAngle` (poseDetection.ts): three-point angle at vertex `b`,
in degrees, normalized to `[0, 180]` by reflecting values above `180`.
The transcendental `Math.atan2 · * 180 / Math.PI` is the abstract
parameter `f`. -/
def calculateAngle (f : ℚ → ℚ → ℚ) (a b c : Pt) : ℚ :=
  let angle := |f (c.y - b.y) (c.x - b.x) - f (a.y - b.y) (a.x - b.x)|
  if angle > 180 then 360 - angle else angle

/-! ## The jerk finite state machine (`jerkFSM`) -/

/-- `JerkPhase`: the closed enumeration of movement phases. -/
inductive JerkPhase where
  | unknown
  | rack
  | dip
  | drive
  | lockout
deriving DecidableEq, Repr

/-- `isPhase`: type guard comparing a phase against a target phase. -/
def isPhase (phase targetPhase : JerkPhase) : Bool :=
  decide (phase = targetPhase)

/-- `JerkFSMConfig`. -/
structure JerkFSMConfig where
  minConfidence : ℚ
  rackHeightThreshold : ℚ
  dipDepthThreshold : ℚ
  lockoutHeightThreshold : ℚ
  lockoutAngleThreshold : ℚ
  minRepDuration : ℚ
deriving DecidableEq, Repr

/-- `defaultJerkFSMConfig`. -/
def defaultJerkFSMConfig : JerkFSMConfig where
  minConfidence := 3/10
  rackHeightThreshold := 1/10
  dipDepthThreshold := 15
  lockoutHeightThreshold := 50
  lockoutAngleThreshold := 160
  minRepDuration := 500

/-- `JerkFSMState`: the FSM's working memory (a module-level mutable
singleton in the source, threaded explicitly here). -/
structure JerkFSMState where
  currentPhase : JerkPhase
  previousPhase : JerkPhase
  repCount : ℕ
  lastRepTime : ℚ
  kneeAngle : ℚ
  leftArmAngle : ℚ
  rightArmAngle : ℚ
  leftWristHeight : ℚ
  rightWristHeight : ℚ
  confidence : ℚ
  lastTransitionTime : ℚ
  isValidRep : Bool
deriving DecidableEq, Repr

/-- `initialJerkFSMState`. -/
def initialJerkFSMState : JerkFSMState where
  currentPhase := JerkPhase.unknown
  previousPhase := JerkPhase.unknown
  repCount := 0
  lastRepTime := 0
  kneeAngle := 0
  leftArmAngle := 0
  rightArmAngle := 0
  leftWristHeight := 0
  rightWristHeight := 0
  confidence := 0
  lastTransitionTime := 0
  isValidRep := false

/-- One required keypoint is confidently detected: present and with
`(score || 0)` not below the threshold (the loop body of
`hasConfidentKeypoints`). -/
def confidentKeypoint (pose : Pose) (name : String) (minConfidence : ℚ) : Bool :=
  match getKeypoint pose name with
  | some kp => decide (¬ scoreOrZero kp < minConfidence)
  | none => false

/-- `hasConfidentKeypoints` (jerkFSM): a non-empty keypoint list in which
every requested name is present with sufficient confidence. -/
def hasConfidentKeypoints (pose : Pose) (keypointNames : List String)
    (minConfidence : ℚ) : Bool :=
  if pose.keypoints.isEmpty then false
  else keypointNames.all fun name => confidentKeypoint pose name minConfidence

/-- `detectRackPosition`: wrists near shoulder height and horizontally
close to the shoulders.  The source unconditionally caches the wrist
heights in the module state before returning the verdict. -/
def detectRackPosition (pose : Pose) (config : JerkFSMConfig)
    (s : JerkFSMState) : Bool × JerkFSMState :=
  match getKeypoint pose "left_shoulder", getKeypoint pose "right_shoulder",
      getKeypoint pose "left_wrist", getKeypoint pose "right_wrist" with
  | some leftShoulder, some rightShoulder, some leftWrist, some rightWrist =>
    let leftWristToShoulderDiff := |leftWrist.y - leftShoulder.y|
    let rightWristToShoulderDiff := |rightWrist.y - rightShoulder.y|
    let leftWristToShoulderHorizDiff := |leftWrist.x - leftShoulder.x|
    let rightWristToShoulderHorizDiff := |rightWrist.x - rightShoulder.x|
    let s := { s with leftWristHeight := leftShoulder.y - leftWrist.y,
                      rightWristHeight := rightShoulder.y - rightWrist.y }
    (decide (leftWristToShoulderDiff < config.rackHeightThreshold * leftShoulder.y ∧
        rightWristToShoulderDiff < config.rackHeightThreshold * rightShoulder.y ∧
        leftWristToShoulderHorizDiff < 50 ∧
        rightWristToShoulderHorizDiff < 50), s)
  | _, _, _, _ => (false, s)

/-- `detectDipPhase`: left knee angle decreased by more than
`dipDepthThreshold` relative to the cached knee angle, and below `170`.
The current knee angle is cached before the verdict is returned. -/
def detectDipPhase (f : ℚ → ℚ → ℚ) (pose : Pose) (config : JerkFSMConfig)
    (s : JerkFSMState) : Bool × JerkFSMState :=
  match getKeypoint pose "left_hip", getKeypoint pose "left_knee",
      getKeypoint pose "left_ankle" with
  | some leftHip, some leftKnee, some leftAnkle =>
    let kneeAngle := calculateAngle f leftHip.pt leftKnee.pt leftAnkle.pt
    let prevKneeAngle := s.kneeAngle
    let s := { s with kneeAngle := kneeAngle }
    (decide (prevKneeAngle - kneeAngle > config.dipDepthThreshold ∧
        kneeAngle < 170), s)
  | _, _, _ => (false, s)

/-- `detectDrivePhase`: knee angle increased by more than `5` relative to
the cached knee angle, legs nearly straight, and both arm angles in the
intermediate range.  Knee and arm angles are cached before the verdict. -/
def detectDrivePhase (f : ℚ → ℚ → ℚ) (pose : Pose) (config : JerkFSMConfig)
    (s : JerkFSMState) : Bool × JerkFSMState :=
  match getKeypoint pose "left_hip", getKeypoint pose "left_knee",
      getKeypoint pose "left_ankle", getKeypoint pose "left_shoulder",
      getKeypoint pose "left_elbow", getKeypoint pose "left_wrist",
      getKeypoint pose "right_shoulder", getKeypoint pose "right_elbow",
      getKeypoint pose "right_wrist" with
  | some leftHip, some leftKnee, some leftAnkle, some leftShoulder,
      some leftElbow, some leftWrist, some rightShoulder, some rightElbow,
      some rightWrist =>
    let kneeAngle := calculateAngle f leftHip.pt leftKnee.pt leftAnkle.pt
    let prevKneeAngle := s.kneeAngle
    let leftArmAngle := calculateAngle f leftShoulder.pt leftElbow.pt leftWrist.pt
    let rightArmAngle := calculateAngle f rightShoulder.pt rightElbow.pt rightWrist.pt
    let s := { s with kneeAngle := kneeAngle, leftArmAngle := leftArmAngle,
                      rightArmAngle := rightArmAngle }
    (decide (kneeAngle - prevKneeAngle > 5 ∧ kneeAngle > 160 ∧
        leftArmAngle > 90 ∧ leftArmAngle < 150 ∧
        rightArmAngle > 90 ∧ rightArmAngle < 150), s)
  | _, _, _, _, _, _, _, _, _ => (false, s)

/-- `detectLockoutPhase`: both arms over the angle threshold, both wrists
over the height threshold, wrists vertically parallel, both arms
vertical.  Arm angles and wrist heights are cached before the verdict. -/
def detectLockoutPhase (f : ℚ → ℚ → ℚ) (pose : Pose) (config : JerkFSMConfig)
    (s : JerkFSMState) : Bool × JerkFSMState :=
  match getKeypoint pose "left_shoulder", getKeypoint pose "right_shoulder",
      getKeypoint pose "left_elbow", getKeypoint pose "right_elbow",
      getKeypoint pose "left_wrist", getKeypoint pose "right_wrist" with
  | some leftShoulder, some rightShoulder, some leftElbow, some rightElbow,
      some leftWrist, some rightWrist =>
    let leftArmAngle := calculateAngle f leftShoulder.pt leftElbow.pt leftWrist.pt
    let rightArmAngle := calculateAngle f rightShoulder.pt rightElbow.pt rightWrist.pt
    let leftWristHeight := leftShoulder.y - leftWrist.y
    let rightWristHeight := rightShoulder.y - rightWrist.y
    let wristVerticalDifference := |leftWrist.y - rightWrist.y|
    let areWristsParallel := wristVerticalDifference < 20
    let isLeftArmVertical := |leftWrist.x - leftShoulder.x| < 30
    let isRightArmVertical := |rightWrist.x - rightShoulder.x| < 30
    let s := { s with leftArmAngle := leftArmAngle, rightArmAngle := rightArmAngle,
                      leftWristHeight := leftWristHeight,
                      rightWristHeight := rightWristHeight }
    (decide (leftArmAngle > config.lockoutAngleThreshold ∧
        rightArmAngle > config.lockoutAngleThreshold ∧
        leftWristHeight > config.lockoutHeightThreshold ∧
        rightWristHeight > config.lockoutHeightThreshold ∧
        areWristsParallel ∧ isLeftArmVertical ∧ isRightArmVertical), s)
  | _, _, _, _, _, _ => (false, s)

/-- The required-landmark set of `processJerkMovement`. -/
def requiredKeypoints : List String :=
  ["left_shoulder", "right_shoulder",
   "left_elbow", "right_elbow",
   "left_wrist", "right_wrist",
   "left_hip", "right_hip",
   "left_knee", "right_knee",
   "left_ankle", "right_ankle"]

/-- The priority-ordered detector chain of `processJerkMovement`
(lines 316–335): lockout, then drive, then dip, then rack, else unknown;
each detector's cache updates are threaded into the next. -/
def classifyPhase (f : ℚ → ℚ → ℚ) (pose : Pose) (config : JerkFSMConfig)
    (s : JerkFSMState) : JerkPhase × JerkFSMState :=
  let lock := detectLockoutPhase f pose config s
  if lock.1 then (JerkPhase.lockout, lock.2)
  else
    let drv := detectDrivePhase f pose config lock.2
    if drv.1 then (JerkPhase.drive, drv.2)
    else
      let dip := detectDipPhase f pose config drv.2
      if dip.1 then (JerkPhase.dip, dip.2)
      else
        let rack := detectRackPosition pose config dip.2
        if rack.1 then (JerkPhase.rack, rack.2)
        else (JerkPhase.unknown, rack.2)

/-- `processJerkMovement`: the per-frame FSM step.  Returns the repetition
count the source returns, together with the updated module state (the
source mutates the singleton in place); `now` stands for `Date.now()`. -/
def processJerkMovement (f : ℚ → ℚ → ℚ) (pose : Pose) (config : JerkFSMConfig)
    (now : ℚ) (s : JerkFSMState) : ℕ × JerkFSMState :=
  if hasConfidentKeypoints pose requiredKeypoints config.minConfidence then
    let c := classifyPhase f pose config s
    let newPhase := c.1
    let previousPhase := c.2.currentPhase
    let s2 := { c.2 with previousPhase := previousPhase, currentPhase := newPhase }
    if newPhase ≠ previousPhase then
      let s3 := { s2 with lastTransitionTime := now }
      if isPhase newPhase JerkPhase.lockout then
        if now - s3.lastRepTime > config.minRepDuration then
          let s4 := { s3 with repCount := s3.repCount + 1, lastRepTime := now,
                              isValidRep := true }
          (s4.repCount, s4)
        else (s3.repCount, s3)
      else
        let valid :=
          match previousPhase with
          | JerkPhase.rack => isPhase newPhase JerkPhase.dip
          | JerkPhase.dip => isPhase newPhase JerkPhase.drive
          | JerkPhase.drive => isPhase newPhase JerkPhase.lockout
          | _ => false
        let s4 := { s3 with isValidRep := valid }
        (s4.repCount, s4)
    else (s2.repCount, s2)
  else (s.repCount, s)

/-- A sequence of classifier calls: each input is a pose with its frame
timestamp, folded through `processJerkMovement`. -/
def runJerk (f : ℚ → ℚ → ℚ) (config : JerkFSMConfig)
    (inputs : List (Pose × ℚ)) (s : JerkFSMState) : JerkFSMState :=
  inputs.foldl (fun st input => (processJerkMovement f input.1 config input.2 st).2) s

/-! ## Landmark smoothing (`poseDetection.ts`) -/

/-- `smoothKeypoint`: uniform moving-average smoothing of one keypoint
against its matched historical keypoints. -/
def smoothKeypoint (currentKeypoint : KeyPoint) (previousKeypoints : List KeyPoint)
    (smoothingFactor : ℚ) : KeyPoint :=
  if previousKeypoints = [] ∨ smoothingFactor ≤ 0 then currentKeypoint
  else
    let factor := max 0 (min 1 smoothingFactor)
    let sumX := previousKeypoints.foldl (fun sum kp => sum + kp.x) 0
    let sumY := previousKeypoints.foldl (fun sum kp => sum + kp.y) 0
    let avgX := sumX / (previousKeypoints.length : ℚ)
    let avgY := sumY / (previousKeypoints.length : ℚ)
    let smoothedX := currentKeypoint.x * (1 - factor) + avgX * factor
    let smoothedY := currentKeypoint.y * (1 - factor) + avgY * factor
    { currentKeypoint with x := smoothedX, y := smoothedY }

/-- `confidenceWeightedSmoothKeypoint`: smoothing against the
confidence-filtered history, weighting each sample (and the current
keypoint) by its own score via the JavaScript `score || minConfidence`. -/
def confidenceWeightedSmoothKeypoint (currentKeypoint : KeyPoint)
    (previousKeypoints : List KeyPoint) (smoothingFactor : ℚ)
    (minConfidence : ℚ) : KeyPoint :=
  if previousKeypoints = [] ∨ smoothingFactor ≤ 0 then currentKeypoint
  else
    let confidentKeypoints := previousKeypoints.filter fun kp =>
      match kp.score with
      | some sc => decide (sc ≥ minConfidence)
      | none => false
    if confidentKeypoints = [] then currentKeypoint
    else
      let acc := confidentKeypoints.foldl
        (fun acc kp =>
          let weight := scoreOrDefault kp.score minConfidence
          (acc.1 + weight, acc.2.1 + kp.x * weight, acc.2.2 + kp.y * weight))
        ((0 : ℚ), (0 : ℚ), (0 : ℚ))
      let currentWeight := scoreOrDefault currentKeypoint.score minConfidence
      let totalWeight := acc.1 + currentWeight
      let weightedSumX := acc.2.1 + currentKeypoint.x * currentWeight
      let weightedSumY := acc.2.2 + currentKeypoint.y * currentWeight
      let avgX := weightedSumX / totalWeight
      let avgY := weightedSumY / totalWeight
      let factor := max 0 (min 1 smoothingFactor)
      let smoothedX := currentKeypoint.x * (1 - factor) + avgX * factor
      let smoothedY := currentKeypoint.y * (1 - factor) + avgY * factor
      { currentKeypoint with x := smoothedX, y := smoothedY }

/-- `smoothPose`: smooth every keypoint of the current pose against the
pose history buffer, in uniform or confidence-weighted mode. -/
def smoothPose (currentPose : Pose) (previousPoses : List Pose)
    (smoothingFactor : ℚ) (useConfidenceWeighting : Bool)
    (minConfidence : ℚ) : Pose :=
  if previousPoses = [] ∨ currentPose.keypoints = [] then currentPose
  else
    let smoothedKeypoints := currentPose.keypoints.map fun keypoint =>
      let previousKeypoints := previousPoses.filterMap fun pose =>
        pose.keypoints.find? fun kp => decide (kp.name = keypoint.name)
      if useConfidenceWeighting then
        confidenceWeightedSmoothKeypoint keypoint previousKeypoints
          smoothingFactor minConfidence
      else
        smoothKeypoint keypoint previousKeypoints smoothingFactor
    { currentPose with keypoints := smoothedKeypoints }

/-! ## Form analysis (`formAnalysis.ts`) -/

/-- `FormIssueSeverity`. -/
inductive FormIssueSeverity where
  | low
  | moderate
  | high
deriving DecidableEq, Repr

/-- `FormIssue`. -/
structure FormIssue where
  id : String
  phase : JerkPhase
  message : String
  severity : FormIssueSeverity
  bodyPart : String
deriving DecidableEq, Repr

/-- `FormAnalysisResult`. -/
structure FormAnalysisResult where
  issues : List FormIssue
  overallScore : ℤ
  timestamp : ℚ
deriving DecidableEq, Repr

/-- The fixed score deduction per severity in `analyzeForm`. -/
def severityPenalty : FormIssueSeverity → ℤ
  | FormIssueSeverity.low => 5
  | FormIssueSeverity.moderate => 10
  | FormIssueSeverity.high => 20

/-- Total deduction of a list of issues. -/
def totalPenalty (issues : List FormIssue) : ℤ :=
  (issues.map fun issue => severityPenalty issue.severity).sum

/-- The issue pushed by each rack-position check. -/
def rackLeftElbowIssue : FormIssue :=
  ⟨"rack_left_elbow_position", JerkPhase.rack,
   "Keep left elbow closer to your body", FormIssueSeverity.moderate,
   "left_elbow"⟩

/-- The right-elbow counterpart of `rackLeftElbowIssue`. -/
def rackRightElbowIssue : FormIssue :=
  ⟨"rack_right_elbow_position", JerkPhase.rack,
   "Keep right elbow closer to your body", FormIssueSeverity.moderate,
   "right_elbow"⟩

/-- The issue for a left wrist away from shoulder height in the rack. -/
def rackLeftWristIssue : FormIssue :=
  ⟨"rack_left_wrist_height", JerkPhase.rack,
   "Adjust left kettlebell to shoulder height", FormIssueSeverity.moderate,
   "left_wrist"⟩

/-- The right-wrist counterpart of `rackLeftWristIssue`. -/
def rackRightWristIssue : FormIssue :=
  ⟨"rack_right_wrist_height", JerkPhase.rack,
   "Adjust right kettlebell to shoulder height", FormIssueSeverity.moderate,
   "right_wrist"⟩

/-- `analyzeRackPosition`: the rack rule set.  A single guard skips the
whole rule set when any of its eight landmarks is missing or below the
confidence threshold; afterwards the four checks run in order. -/
def analyzeRackPosition (pose : Pose) (minConfidence : ℚ) : List FormIssue :=
  match getKeypoint pose "left_shoulder", getKeypoint pose "right_shoulder",
      getKeypoint pose "left_elbow", getKeypoint pose "right_elbow",
      getKeypoint pose "left_wrist", getKeypoint pose "right_wrist",
      getKeypoint pose "left_hip", getKeypoint pose "right_hip" with
  | some leftShoulder, some rightShoulder, some leftElbow, some rightElbow,
      some leftWrist, some rightWrist, some leftHip, some rightHip =>
    if scoreOrZero leftShoulder < minConfidence ∨
        scoreOrZero rightShoulder < minConfidence ∨
        scoreOrZero leftElbow < minConfidence ∨
        scoreOrZero rightElbow < minConfidence ∨
        scoreOrZero leftWrist < minConfidence ∨
        scoreOrZero rightWrist < minConfidence ∨
        scoreOrZero leftHip < minConfidence ∨
        scoreOrZero rightHip < minConfidence then []
    else
      let leftElbowToHipDistance := |leftElbow.x - leftHip.x|
      let rightElbowToHipDistance := |rightElbow.x - rightHip.x|
      let shoulderWidth := |leftShoulder.x - rightShoulder.x|
      let leftWristToShoulderDiff := |leftWrist.y - leftShoulder.y|
      let rightWristToShoulderDiff := |rightWrist.y - rightShoulder.y|
      (if leftElbowToHipDistance > shoulderWidth * (4/10) then [rackLeftElbowIssue] else []) ++
      (if rightElbowToHipDistance > shoulderWidth * (4/10) then [rackRightElbowIssue] else []) ++
      (if leftWristToShoulderDiff > shoulderWidth * (2/10) then [rackLeftWristIssue] else []) ++
      (if rightWristToShoulderDiff > shoulderWidth * (2/10) then [rackRightWristIssue] else [])
  | _, _, _, _, _, _, _, _ => []

/-- The issue for a too-shallow dip. -/
def dipTooShallowIssue : FormIssue :=
  ⟨"dip_too_shallow", JerkPhase.dip, "Deepen your dip for more power",
   FormIssueSeverity.moderate, "knees"⟩

/-- The issue for a too-deep dip. -/
def dipTooDeepIssue : FormIssue :=
  ⟨"dip_too_deep", JerkPhase.dip, "Dip is too deep, aim for quarter squat",
   FormIssueSeverity.moderate, "knees"⟩

/-- The issue for unevenly bent knees in the dip. -/
def dipUnevenKneesIssue : FormIssue :=
  ⟨"dip_uneven_knees", JerkPhase.dip, "Keep knees evenly bent",
   FormIssueSeverity.moderate, "knees"⟩

/-- The issue for a forward-leaning torso in the dip. -/
def dipLeaningForwardIssue : FormIssue :=
  ⟨"dip_leaning_forward", JerkPhase.dip, "Keep torso more upright",
   FormIssueSeverity.high, "torso"⟩

/-- `analyzeDipPhase`: the dip rule set (knee angle range, knee symmetry,
torso verticality) behind a single eight-landmark guard. -/
def analyzeDipPhase (f : ℚ → ℚ → ℚ) (pose : Pose) (minConfidence : ℚ) :
    List FormIssue :=
  match getKeypoint pose "left_hip", getKeypoint pose "right_hip",
      getKeypoint pose "left_knee", getKeypoint pose "right_knee",
      getKeypoint pose "left_ankle", getKeypoint pose "right_ankle",
      getKeypoint pose "left_shoulder", getKeypoint pose "right_shoulder" with
  | some leftHip, some rightHip, some leftKnee, some rightKnee,
      some leftAnkle, some rightAnkle, some leftShoulder, some rightShoulder =>
    if scoreOrZero leftHip < minConfidence ∨
        scoreOrZero rightHip < minConfidence ∨
        scoreOrZero leftKnee < minConfidence ∨
        scoreOrZero rightKnee < minConfidence ∨
        scoreOrZero leftAnkle < minConfidence ∨
        scoreOrZero rightAnkle < minConfidence ∨
        scoreOrZero leftShoulder < minConfidence ∨
        scoreOrZero rightShoulder < minConfidence then []
    else
      let leftKneeAngle := calculateAngle f leftHip.pt leftKnee.pt leftAnkle.pt
      let rightKneeAngle := calculateAngle f rightHip.pt rightKnee.pt rightAnkle.pt
      let torsoAngle := calculateAngle f
        ⟨(leftShoulder.x + rightShoulder.x) / 2, (leftShoulder.y + rightShoulder.y) / 2⟩
        ⟨(leftHip.x + rightHip.x) / 2, (leftHip.y + rightHip.y) / 2⟩
        ⟨(leftHip.x + rightHip.x) / 2, (leftHip.y + rightHip.y) / 2 - 100⟩
      (if leftKneeAngle > 160 then [dipTooShallowIssue] else []) ++
      (if leftKneeAngle < 120 then [dipTooDeepIssue] else []) ++
      (if |leftKneeAngle - rightKneeAngle| > 15 then [dipUnevenKneesIssue] else []) ++
      (if torsoAngle < 75 then [dipLeaningForwardIssue] else [])
  | _, _, _, _, _, _, _, _ => []

/-- The issue for unevenly extending arms in the drive. -/
def driveUnevenArmsIssue : FormIssue :=
  ⟨"drive_uneven_arms", JerkPhase.drive, "Extend arms evenly",
   FormIssueSeverity.moderate, "arms"⟩

/-- The issue for incomplete leg extension in the drive. -/
def driveIncompleteLegIssue : FormIssue :=
  ⟨"drive_incomplete_leg_extension", JerkPhase.drive,
   "Fully extend legs for maximum power", FormIssueSeverity.moderate, "legs"⟩

/-- `analyzeDrivePhase`: the drive rule set (arm symmetry, leg extension)
behind a single ten-landmark guard. -/
def analyzeDrivePhase (f : ℚ → ℚ → ℚ) (pose : Pose) (minConfidence : ℚ) :
    List FormIssue :=
  match getKeypoint pose "left_shoulder", getKeypoint pose "right_shoulder",
      getKeypoint pose "left_elbow", getKeypoint pose "right_elbow",
      getKeypoint pose "left_wrist", getKeypoint pose "right_wrist",
      getKeypoint pose "left_hip", getKeypoint pose "right_hip",
      getKeypoint pose "left_knee", getKeypoint pose "right_knee" with
  | some leftShoulder, some rightShoulder, some leftElbow, some rightElbow,
      some leftWrist, some rightWrist, some leftHip, some rightHip,
      some leftKnee, some rightKnee =>
    if scoreOrZero leftShoulder < minConfidence ∨
        scoreOrZero rightShoulder < minConfidence ∨
        scoreOrZero leftElbow < minConfidence ∨
        scoreOrZero rightElbow < minConfidence ∨
        scoreOrZero leftWrist < minConfidence ∨
        scoreOrZero rightWrist < minConfidence ∨
        scoreOrZero leftHip < minConfidence ∨
        scoreOrZero rightHip < minConfidence ∨
        scoreOrZero leftKnee < minConfidence ∨
        scoreOrZero rightKnee < minConfidence then []
    else
      let leftArmAngle := calculateAngle f leftShoulder.pt leftElbow.pt leftWrist.pt
      let rightArmAngle := calculateAngle f rightShoulder.pt rightElbow.pt rightWrist.pt
      let leftKneeAngle := calculateAngle f leftHip.pt leftKnee.pt
        ⟨leftKnee.x, leftKnee.y + 100⟩
      let rightKneeAngle := calculateAngle f rightHip.pt rightKnee.pt
        ⟨rightKnee.x, rightKnee.y + 100⟩
      (if |leftArmAngle - rightArmAngle| > 20 then [driveUnevenArmsIssue] else []) ++
      (if leftKneeAngle < 160 ∨ rightKneeAngle < 160 then [driveIncompleteLegIssue] else [])
  | _, _, _, _, _, _, _, _, _, _ => []

/-- The issue for an unextended left arm in the lockout. -/
def lockoutLeftArmIssue : FormIssue :=
  ⟨"lockout_left_arm_not_extended", JerkPhase.lockout,
   "Fully extend left arm overhead", FormIssueSeverity.high, "left_arm"⟩

/-- The right-arm counterpart of `lockoutLeftArmIssue`. -/
def lockoutRightArmIssue : FormIssue :=
  ⟨"lockout_right_arm_not_extended", JerkPhase.lockout,
   "Fully extend right arm overhead", FormIssueSeverity.high, "right_arm"⟩

/-- The issue for wrists at different heights in the lockout. -/
def lockoutUnevenWristsIssue : FormIssue :=
  ⟨"lockout_uneven_wrists", JerkPhase.lockout, "Keep wrists at the same height",
   FormIssueSeverity.moderate, "wrists"⟩

/-- The issue for a non-vertical left arm in the lockout. -/
def lockoutLeftArmVerticalIssue : FormIssue :=
  ⟨"lockout_left_arm_not_vertical", JerkPhase.lockout,
   "Position left arm more vertically", FormIssueSeverity.moderate, "left_arm"⟩

/-- The right-arm counterpart of `lockoutLeftArmVerticalIssue`. -/
def lockoutRightArmVerticalIssue : FormIssue :=
  ⟨"lockout_right_arm_not_vertical", JerkPhase.lockout,
   "Position right arm more vertically", FormIssueSeverity.moderate, "right_arm"⟩

/-- `analyzeLockoutPhase`: the lockout rule set (arm extension, wrist
alignment, arm verticality) behind a single six-landmark guard.  The
verticality checks apply `atan2deg` to the horizontal and vertical
wrist–shoulder differences directly. -/
def analyzeLockoutPhase (f : ℚ → ℚ → ℚ) (pose : Pose) (minConfidence : ℚ) :
    List FormIssue :=
  match getKeypoint pose "left_shoulder", getKeypoint pose "right_shoulder",
      getKeypoint pose "left_elbow", getKeypoint pose "right_elbow",
      getKeypoint pose "left_wrist", getKeypoint pose "right_wrist" with
  | some leftShoulder, some rightShoulder, some leftElbow, some rightElbow,
      some leftWrist, some rightWrist =>
    if scoreOrZero leftShoulder < minConfidence ∨
        scoreOrZero rightShoulder < minConfidence ∨
        scoreOrZero leftElbow < minConfidence ∨
        scoreOrZero rightElbow < minConfidence ∨
        scoreOrZero leftWrist < minConfidence ∨
        scoreOrZero rightWrist < minConfidence then []
    else
      let leftArmAngle := calculateAngle f leftShoulder.pt leftElbow.pt leftWrist.pt
      let rightArmAngle := calculateAngle f rightShoulder.pt rightElbow.pt rightWrist.pt
      let wristHeightDifference := |leftWrist.y - rightWrist.y|
      let shoulderWidth := |leftShoulder.x - rightShoulder.x|
      let leftArmVerticalAngle :=
        |f (leftWrist.x - leftShoulder.x) (leftShoulder.y - leftWrist.y)|
      let rightArmVerticalAngle :=
        |f (rightWrist.x - rightShoulder.x) (rightShoulder.y - rightWrist.y)|
      (if leftArmAngle < 160 then [lockoutLeftArmIssue] else []) ++
      (if rightArmAngle < 160 then [lockoutRightArmIssue] else []) ++
      (if wristHeightDifference > shoulderWidth * (1/10) then [lockoutUnevenWristsIssue] else []) ++
      (if leftArmVerticalAngle > 15 then [lockoutLeftArmVerticalIssue] else []) ++
      (if rightArmVerticalAngle > 15 then [lockoutRightArmVerticalIssue] else [])
  | _, _, _, _, _, _ => []

/-- `analyzeForm`: dispatch to the phase's rule set, then score
`100` minus the per-severity deductions, clamped to `[0, 100]`;
`now` stands for `Date.now()`. -/
def analyzeForm (f : ℚ → ℚ → ℚ) (pose : Pose) (currentPhase : JerkPhase)
    (minConfidence : ℚ) (now : ℚ) : FormAnalysisResult :=
  let issues :=
    match currentPhase with
    | JerkPhase.rack => analyzeRackPosition pose minConfidence
    | JerkPhase.dip => analyzeDipPhase f pose minConfidence
    | JerkPhase.drive => analyzeDrivePhase f pose minConfidence
    | JerkPhase.lockout => analyzeLockoutPhase f pose minConfidence
    | JerkPhase.unknown => []
  let overallScore := issues.foldl
    (fun score issue => score - severityPenalty issue.severity) 100
  ⟨issues, max 0 (min 100 overallScore), now⟩

/-! ## Concrete evaluation fixtures

`atan2Mock` is one concrete instantiation of the abstract `atan2deg`
primitive, used to evaluate the pipeline at closed inputs (the
universally quantified theorems above hold for every instantiation). -/

/-- A concrete stand-in for `atan2deg`: returns its first argument (the
y-difference).  Angle values computed with it are plain coordinate
differences, which makes closed evaluations elementary. -/
def atan2Mock : ℚ → ℚ → ℚ := fun dy _ => dy

/-- Build a named keypoint with a present score. -/
def mkKp (name : String) (x y sc : ℚ) : KeyPoint := ⟨x, y, some sc, some name⟩

/-- A fully confident pose in lockout position (with `atan2Mock`, both
arm angles evaluate to `170`, both wrist heights to `170`). -/
def lockoutPose : Pose :=
  ⟨[mkKp "left_shoulder" 100 300 (9/10), mkKp "right_shoulder" 200 300 (9/10),
    mkKp "left_elbow" 100 220 (9/10), mkKp "right_elbow" 200 220 (9/10),
    mkKp "left_wrist" 100 130 (9/10), mkKp "right_wrist" 200 130 (9/10),
    mkKp "left_hip" 100 500 (9/10), mkKp "right_hip" 200 500 (9/10),
    mkKp "left_knee" 100 650 (9/10), mkKp "right_knee" 200 650 (9/10),
    mkKp "left_ankle" 100 800 (9/10), mkKp "right_ankle" 200 800 (9/10)], none⟩

/-- A pose with no keypoints at all (e.g. no person detected). -/
def emptyPose : Pose := ⟨[], none⟩

/-- A fully confident pose (with `atan2Mock`: knee angle `100`, arm
angles `5`) whose wrists are horizontally far from the shoulders, so
that with a cached knee angle of `170` the dip predicate holds on the
incoming state while lockout, drive and rack all fail. -/
def dipPose : Pose :=
  ⟨[mkKp "left_shoulder" 100 300 (9/10), mkKp "right_shoulder" 200 300 (9/10),
    mkKp "left_elbow" 100 220 (9/10), mkKp "right_elbow" 200 220 (9/10),
    mkKp "left_wrist" 160 305 (9/10), mkKp "right_wrist" 260 305 (9/10),
    mkKp "left_hip" 100 500 (9/10), mkKp "right_hip" 200 500 (9/10),
    mkKp "left_knee" 100 650 (9/10), mkKp "right_knee" 200 650 (9/10),
    mkKp "left_ankle" 100 600 (9/10), mkKp "right_ankle" 200 600 (9/10)], none⟩

/-- State for the dip scenario: the previous frame cached a straight knee
angle of `170`. -/
def dipState : JerkFSMState :=
  { initialJerkFSMState with currentPhase := JerkPhase.rack, kneeAngle := 170 }

/-- State for the validity-flag scenario: currently in the dip, with a
still-set validity flag and a repetition counted 100 ms ago. -/
def c5State : JerkFSMState :=
  { initialJerkFSMState with currentPhase := JerkPhase.dip, isValidRep := true,
                             lastRepTime := 900 }

/-- State for the no-transition scenario: already in lockout, with a
distinct previous phase and a recorded transition time. -/
def c6State : JerkFSMState :=
  { initialJerkFSMState with currentPhase := JerkPhase.lockout,
                             previousPhase := JerkPhase.drive,
                             lastTransitionTime := 42 }

/-- A pose for the form-analysis guard scenario: shoulders and wrists
fully confident with clearly uneven wrists (height difference `60`
against a shoulder width of `100`), but the left elbow at confidence
`0`. -/
def c8Pose : Pose :=
  ⟨[mkKp "left_shoulder" 100 300 (9/10), mkKp "right_shoulder" 200 300 (9/10),
    mkKp "left_elbow" 100 220 0, mkKp "right_elbow" 200 220 (9/10),
    mkKp "left_wrist" 100 100 (9/10), mkKp "right_wrist" 200 160 (9/10)], none⟩

/-- The landmark set of the lockout form-analysis rule set. -/
def lockoutAnalysisKeypoints : List String :=
  ["left_shoulder", "right_shoulder", "left_elbow", "right_elbow",
   "left_wrist", "right_wrist"]

/-- The landmark set of the rack form-analysis rule set. -/
def rackAnalysisKeypoints : List String :=
  ["left_shoulder", "right_shoulder", "left_elbow", "right_elbow",
   "left_wrist", "right_wrist", "left_hip", "right_hip"]

/-- The landmark set of the dip form-analysis rule set. -/
def dipAnalysisKeypoints : List String :=
  ["left_hip", "right_hip", "left_knee", "right_knee",
   "left_ankle", "right_ankle", "left_shoulder", "right_shoulder"]

/-- The landmark set of the drive form-analysis rule set. -/
def driveAnalysisKeypoints : List String :=
  ["left_shoulder", "right_shoulder", "left_elbow", "right_elbow",
   "left_wrist", "right_wrist", "left_hip", "right_hip",
   "left_knee", "right_knee"]

/-- All names of a list are confidently present in a pose. -/
def allConfident (pose : Pose) (names : List String) (minConfidence : ℚ) : Bool :=
  names.all fun name => confidentKeypoint pose name minConfidence

/-- A keypoint for the smoothing scenarios. -/
def kpA : KeyPoint := mkKp "left_wrist" 10 20 (8/10)

/-- A second keypoint for the smoothing scenarios. -/
def kpB : KeyPoint := mkKp "left_wrist" 30 40 (6/10)

/-- A small pose for the smoothing scenarios. -/
def smallPose : Pose := ⟨[kpA], some (9/10)⟩

/-- A second small pose, used as smoothing history. -/
def smallPoseB : Pose := ⟨[kpB], some (7/10)⟩

/-! ## Generic lemmas about the FSM step -/

/-- The detector helpers only write the cached measurement fields; the
six control fields of the state (phases, counter, timestamps, validity)
pass through them untouched.  `CoreEq s t` says `t` agrees with `s` on
those six fields. -/
def CoreEq (s t : JerkFSMState) : Prop :=
  t.currentPhase = s.currentPhase ∧ t.previousPhase = s.previousPhase ∧
  t.repCount = s.repCount ∧ t.lastRepTime = s.lastRepTime ∧
  t.lastTransitionTime = s.lastTransitionTime ∧ t.isValidRep = s.isValidRep

lemma coreEq_refl (s : JerkFSMState) : CoreEq s s := by
  simp [CoreEq]

lemma coreEq_trans {s t u : JerkFSMState} (hst : CoreEq s t) (htu : CoreEq t u) :
    CoreEq s u := by
  unfold CoreEq at hst htu ⊢
  exact ⟨htu.1.trans hst.1, htu.2.1.trans hst.2.1, htu.2.2.1.trans hst.2.2.1,
    htu.2.2.2.1.trans hst.2.2.2.1, htu.2.2.2.2.1.trans hst.2.2.2.2.1,
    htu.2.2.2.2.2.trans hst.2.2.2.2.2⟩

lemma detectRackPosition_coreEq (pose : Pose) (config : JerkFSMConfig)
    (s : JerkFSMState) : CoreEq s (detectRackPosition pose config s).2 := by
  unfold detectRackPosition
  split <;> simp [CoreEq]

lemma detectDipPhase_coreEq (f : ℚ → ℚ → ℚ) (pose : Pose) (config : JerkFSMConfig)
    (s : JerkFSMState) : CoreEq s (detectDipPhase f pose config s).2 := by
  unfold detectDipPhase
  split <;> simp [CoreEq]

lemma detectDrivePhase_coreEq (f : ℚ → ℚ → ℚ) (pose : Pose) (config : JerkFSMConfig)
    (s : JerkFSMState) : CoreEq s (detectDrivePhase f pose config s).2 := by
  unfold detectDrivePhase
  split <;> simp [CoreEq]

lemma detectLockoutPhase_coreEq (f : ℚ → ℚ → ℚ) (pose : Pose) (config : JerkFSMConfig)
    (s : JerkFSMState) : CoreEq s (detectLockoutPhase f pose config s).2 := by
  unfold detectLockoutPhase
  split <;> simp [CoreEq]

/-- The detector chain never touches the six control fields. -/
lemma classifyPhase_coreEq (f : ℚ → ℚ → ℚ) (pose : Pose) (config : JerkFSMConfig)
    (s : JerkFSMState) : CoreEq s (classifyPhase f pose config s).2 := by
  simp only [classifyPhase]
  split
  · exact detectLockoutPhase_coreEq f pose config s
  · split
    · exact coreEq_trans (detectLockoutPhase_coreEq f pose config s)
        (detectDrivePhase_coreEq f pose config _)
    · split
      · exact coreEq_trans (detectLockoutPhase_coreEq f pose config s)
          (coreEq_trans (detectDrivePhase_coreEq f pose config _)
            (detectDipPhase_coreEq f pose config _))
      · split
        · exact coreEq_trans (detectLockoutPhase_coreEq f pose config s)
            (coreEq_trans (detectDrivePhase_coreEq f pose config _)
              (coreEq_trans (detectDipPhase_coreEq f pose config _)
                (detectRackPosition_coreEq pose config _)))
        · exact coreEq_trans (detectLockoutPhase_coreEq f pose config s)
            (coreEq_trans (detectDrivePhase_coreEq f pose config _)
              (coreEq_trans (detectDipPhase_coreEq f pose config _)
                (detectRackPosition_coreEq pose config _)))

/-- A failed confidence guard freezes the whole step. -/
lemma process_notConfident (f : ℚ → ℚ → ℚ) (pose : Pose) (config : JerkFSMConfig)
    (now : ℚ) (s : JerkFSMState)
    (hconf : hasConfidentKeypoints pose requiredKeypoints config.minConfidence = false) :
    processJerkMovement f pose config now s = (s.repCount, s) := by
  simp only [processJerkMovement, hconf, Bool.false_eq_true, if_false]

/-- Full characterization of a guard-passing step of `processJerkMovement`
in terms of the computed phase `(classifyPhase f pose config s).1` and the
six control fields of the incoming state. -/
lemma process_spec (f : ℚ → ℚ → ℚ) (pose : Pose) (config : JerkFSMConfig)
    (now : ℚ) (s : JerkFSMState)
    (hconf : hasConfidentKeypoints pose requiredKeypoints config.minConfidence = true) :
    (processJerkMovement f pose config now s).1 =
      (processJerkMovement f pose config now s).2.repCount ∧
    (processJerkMovement f pose config now s).2.currentPhase =
      (classifyPhase f pose config s).1 ∧
    (processJerkMovement f pose config now s).2.previousPhase = s.currentPhase ∧
    ((classifyPhase f pose config s).1 = s.currentPhase →
      (processJerkMovement f pose config now s).2.repCount = s.repCount ∧
      (processJerkMovement f pose config now s).2.lastRepTime = s.lastRepTime ∧
      (processJerkMovement f pose config now s).2.lastTransitionTime = s.lastTransitionTime ∧
      (processJerkMovement f pose config now s).2.isValidRep = s.isValidRep) ∧
    ((classifyPhase f pose config s).1 ≠ s.currentPhase →
      (processJerkMovement f pose config now s).2.lastTransitionTime = now ∧
      ((classifyPhase f pose config s).1 = JerkPhase.lockout →
        (now - s.lastRepTime > config.minRepDuration →
          (processJerkMovement f pose config now s).2.repCount = s.repCount + 1 ∧
          (processJerkMovement f pose config now s).2.lastRepTime = now ∧
          (processJerkMovement f pose config now s).2.isValidRep = true) ∧
        (¬ now - s.lastRepTime > config.minRepDuration →
          (processJerkMovement f pose config now s).2.repCount = s.repCount ∧
          (processJerkMovement f pose config now s).2.lastRepTime = s.lastRepTime ∧
          (processJerkMovement f pose config now s).2.isValidRep = s.isValidRep)) ∧
      ((classifyPhase f pose config s).1 ≠ JerkPhase.lockout →
        (processJerkMovement f pose config now s).2.repCount = s.repCount ∧
        (processJerkMovement f pose config now s).2.lastRepTime = s.lastRepTime ∧
        ((processJerkMovement f pose config now s).2.isValidRep = true ↔
          (s.currentPhase = JerkPhase.rack ∧ (classifyPhase f pose config s).1 = JerkPhase.dip) ∨
          (s.currentPhase = JerkPhase.dip ∧ (classifyPhase f pose config s).1 = JerkPhase.drive)))) := by
  obtain ⟨hcp, hpp, hrc, hlr, hlt, hvr⟩ := classifyPhase_coreEq f pose config s
  have hisoiff : ∀ a b : JerkPhase, isPhase a b = true ↔ a = b := by
    intro a b
    simp [isPhase]
  simp only [processJerkMovement, hconf, if_true, hcp, hpp, hrc, hlr, hlt, hvr]
  split_ifs with h1 h2 h3
  · rw [hisoiff] at h2
    simp_all
  · rw [hisoiff] at h2
    simp_all
  · have h2x : (classifyPhase f pose config s).1 ≠ JerkPhase.lockout := by
      intro hx
      exact h2 ((hisoiff _ _).mpr hx)
    cases hphase : s.currentPhase <;> simp_all [isPhase]
  · simp_all

/-! ## Evaluation lemmas for the concrete fixtures -/

lemma mkKp_pt (n : String) (x y sc : ℚ) : (mkKp n x y sc).pt = ⟨x, y⟩ := rfl

lemma mkKp_x (n : String) (x y sc : ℚ) : (mkKp n x y sc).x = x := rfl

lemma mkKp_y (n : String) (x y sc : ℚ) : (mkKp n x y sc).y = y := rfl

lemma scoreOrZero_mkKp (n : String) (x y sc : ℚ) : scoreOrZero (mkKp n x y sc) = sc := rfl

lemma lockoutPose_gk_ls : getKeypoint lockoutPose "left_shoulder" = some (mkKp "left_shoulder" 100 300 (9/10)) := rfl

lemma lockoutPose_gk_rs : getKeypoint lockoutPose "right_shoulder" = some (mkKp "right_shoulder" 200 300 (9/10)) := rfl

lemma lockoutPose_gk_le : getKeypoint lockoutPose "left_elbow" = some (mkKp "left_elbow" 100 220 (9/10)) := rfl

lemma lockoutPose_gk_re : getKeypoint lockoutPose "right_elbow" = some (mkKp "right_elbow" 200 220 (9/10)) := rfl

lemma lockoutPose_gk_lw : getKeypoint lockoutPose "left_wrist" = some (mkKp "left_wrist" 100 130 (9/10)) := rfl

lemma lockoutPose_gk_rw : getKeypoint lockoutPose "right_wrist" = some (mkKp "right_wrist" 200 130 (9/10)) := rfl

lemma lockoutPose_gk_lh : getKeypoint lockoutPose "left_hip" = some (mkKp "left_hip" 100 500 (9/10)) := rfl

lemma lockoutPose_gk_rh : getKeypoint lockoutPose "right_hip" = some (mkKp "right_hip" 200 500 (9/10)) := rfl

lemma lockoutPose_gk_lk : getKeypoint lockoutPose "left_knee" = some (mkKp "left_knee" 100 650 (9/10)) := rfl

lemma lockoutPose_gk_rk : getKeypoint lockoutPose "right_knee" = some (mkKp "right_knee" 200 650 (9/10)) := rfl

lemma lockoutPose_gk_la : getKeypoint lockoutPose "left_ankle" = some (mkKp "left_ankle" 100 800 (9/10)) := rfl

lemma lockoutPose_gk_ra : getKeypoint lockoutPose "right_ankle" = some (mkKp "right_ankle" 200 800 (9/10)) := rfl

lemma lockoutPose_nonempty : lockoutPose.keypoints.isEmpty = false := rfl

/-- All twelve required landmarks of the lockout fixture pass the default
confidence threshold. -/
lemma lockoutPose_confident :
    hasConfidentKeypoints lockoutPose requiredKeypoints (3/10) = true := by
  norm_num [hasConfidentKeypoints, requiredKeypoints, confidentKeypoint,
    lockoutPose_gk_ls, lockoutPose_gk_rs, lockoutPose_gk_le, lockoutPose_gk_re,
    lockoutPose_gk_lw, lockoutPose_gk_rw, lockoutPose_gk_lh, lockoutPose_gk_rh,
    lockoutPose_gk_lk, lockoutPose_gk_rk, lockoutPose_gk_la, lockoutPose_gk_ra,
    lockoutPose_nonempty, scoreOrZero_mkKp, List.all]

/-- The lockout fixture is detected as lockout from any incoming state. -/
lemma lockoutPose_detect (s : JerkFSMState) :
    (detectLockoutPhase atan2Mock lockoutPose defaultJerkFSMConfig s).1 = true := by
  norm_num [detectLockoutPhase, lockoutPose_gk_ls, lockoutPose_gk_rs,
    lockoutPose_gk_le, lockoutPose_gk_re, lockoutPose_gk_lw, lockoutPose_gk_rw,
    mkKp_pt, mkKp_x, mkKp_y, calculateAngle, atan2Mock, defaultJerkFSMConfig]

/-- The lockout fixture classifies as lockout from any incoming state. -/
lemma lockoutPose_classify (s : JerkFSMState) :
    (classifyPhase atan2Mock lockoutPose defaultJerkFSMConfig s).1 = JerkPhase.lockout := by
  simp [classifyPhase, lockoutPose_detect s]

lemma dipPose_gk_ls : getKeypoint dipPose "left_shoulder" = some (mkKp "left_shoulder" 100 300 (9/10)) := rfl

lemma dipPose_gk_rs : getKeypoint dipPose "right_shoulder" = some (mkKp "right_shoulder" 200 300 (9/10)) := rfl

lemma dipPose_gk_le : getKeypoint dipPose "left_elbow" = some (mkKp "left_elbow" 100 220 (9/10)) := rfl

lemma dipPose_gk_re : getKeypoint dipPose "right_elbow" = some (mkKp "right_elbow" 200 220 (9/10)) := rfl

lemma dipPose_gk_lw : getKeypoint dipPose "left_wrist" = some (mkKp "left_wrist" 160 305 (9/10)) := rfl

lemma dipPose_gk_rw : getKeypoint dipPose "right_wrist" = some (mkKp "right_wrist" 260 305 (9/10)) := rfl

lemma dipPose_gk_lh : getKeypoint dipPose "left_hip" = some (mkKp "left_hip" 100 500 (9/10)) := rfl

lemma dipPose_gk_rh : getKeypoint dipPose "right_hip" = some (mkKp "right_hip" 200 500 (9/10)) := rfl

lemma dipPose_gk_lk : getKeypoint dipPose "left_knee" = some (mkKp "left_knee" 100 650 (9/10)) := rfl

lemma dipPose_gk_rk : getKeypoint dipPose "right_knee" = some (mkKp "right_knee" 200 650 (9/10)) := rfl

lemma dipPose_gk_la : getKeypoint dipPose "left_ankle" = some (mkKp "left_ankle" 100 600 (9/10)) := rfl

lemma dipPose_gk_ra : getKeypoint dipPose "right_ankle" = some (mkKp "right_ankle" 200 600 (9/10)) := rfl

lemma dipPose_nonempty : dipPose.keypoints.isEmpty = false := rfl

/-- All twelve required landmarks of the dip fixture pass the default
confidence threshold. -/
lemma dipPose_confident :
    hasConfidentKeypoints dipPose requiredKeypoints (3/10) = true := by
  norm_num [hasConfidentKeypoints, requiredKeypoints, confidentKeypoint,
    dipPose_gk_ls, dipPose_gk_rs, dipPose_gk_le, dipPose_gk_re,
    dipPose_gk_lw, dipPose_gk_rw, dipPose_gk_lh, dipPose_gk_rh,
    dipPose_gk_lk, dipPose_gk_rk, dipPose_gk_la, dipPose_gk_ra,
    dipPose_nonempty, scoreOrZero_mkKp, List.all]

/-- The dip fixture never looks like a lockout (arm angles are `5`). -/
lemma dipPose_not_lockout (s : JerkFSMState) :
    (detectLockoutPhase atan2Mock dipPose defaultJerkFSMConfig s).1 = false := by
  norm_num [detectLockoutPhase, dipPose_gk_ls, dipPose_gk_rs,
    dipPose_gk_le, dipPose_gk_re, dipPose_gk_lw, dipPose_gk_rw,
    mkKp_pt, mkKp_x, mkKp_y, calculateAngle, atan2Mock, defaultJerkFSMConfig]

/-- The dip fixture never looks like a drive (its knee angle `100` is
below `160`), from any incoming state. -/
lemma dipPose_not_drive (s : JerkFSMState) :
    (detectDrivePhase atan2Mock dipPose defaultJerkFSMConfig s).1 = false := by
  norm_num [detectDrivePhase, dipPose_gk_ls, dipPose_gk_rs,
    dipPose_gk_le, dipPose_gk_re, dipPose_gk_lw, dipPose_gk_rw,
    dipPose_gk_lh, dipPose_gk_lk, dipPose_gk_la,
    mkKp_pt, mkKp_x, mkKp_y, calculateAngle, atan2Mock, defaultJerkFSMConfig]

/-- Against the cached knee angle `170` of `dipState`, the dip fixture
satisfies the dip predicate: the knee angle dropped from `170` to `100`
(by more than the threshold `15`) and is below `170`. -/
lemma dipPose_dip_on_dipState :
    (detectDipPhase atan2Mock dipPose defaultJerkFSMConfig dipState).1 = true := by
  norm_num [detectDipPhase, dipPose_gk_lh, dipPose_gk_lk, dipPose_gk_la,
    mkKp_pt, mkKp_x, mkKp_y, calculateAngle, atan2Mock, defaultJerkFSMConfig,
    dipState, initialJerkFSMState]

/-- The dip fixture is not a rack position (wrists are `60` px from the
shoulders horizontally, beyond the fixed `50` px bound). -/
lemma dipPose_not_rack (s : JerkFSMState) :
    (detectRackPosition dipPose defaultJerkFSMConfig s).1 = false := by
  norm_num [detectRackPosition, dipPose_gk_ls, dipPose_gk_rs,
    dipPose_gk_lw, dipPose_gk_rw,
    mkKp_x, mkKp_y, defaultJerkFSMConfig]

/-- The drive detector caches the current knee angle (`100` for the dip
fixture) into the state it passes on. -/
lemma dipPose_drive_kneeAngle (s : JerkFSMState) :
    ((detectDrivePhase atan2Mock dipPose defaultJerkFSMConfig s).2).kneeAngle = 100 := by
  norm_num [detectDrivePhase, dipPose_gk_ls, dipPose_gk_rs,
    dipPose_gk_le, dipPose_gk_re, dipPose_gk_lw, dipPose_gk_rw,
    dipPose_gk_lh, dipPose_gk_lk, dipPose_gk_la,
    mkKp_pt, mkKp_x, mkKp_y, calculateAngle, atan2Mock, defaultJerkFSMConfig]

/-- Inside the detector chain the dip check always runs after the drive
detector already overwrote the cached knee angle with the current
frame's value, so the dip delta is `0` and the chain classifies the dip
fixture as unknown from every incoming state — even from `dipState`,
whose cached knee angle satisfies the dip predicate. -/
lemma dipPose_classify (s : JerkFSMState) :
    (classifyPhase atan2Mock dipPose defaultJerkFSMConfig s).1 = JerkPhase.unknown := by
  have hthr : defaultJerkFSMConfig.dipDepthThreshold = 15 := rfl
  have hdip : (detectDipPhase atan2Mock dipPose defaultJerkFSMConfig
      (detectDrivePhase atan2Mock dipPose defaultJerkFSMConfig
        (detectLockoutPhase atan2Mock dipPose defaultJerkFSMConfig s).2).2).1 = false := by
    norm_num [detectDipPhase, dipPose_gk_lh, dipPose_gk_lk, dipPose_gk_la,
      mkKp_pt, mkKp_x, mkKp_y, calculateAngle, atan2Mock, hthr,
      dipPose_drive_kneeAngle]
  simp [classifyPhase, dipPose_not_lockout, dipPose_not_drive, hdip, dipPose_not_rack]

/-! ## Claim theorems -/

/-- C1: on a guard-passing call whose computed phase is lockout and
differs from the current phase, `repCount` increases by exactly `1` and
`lastRepTime` is set to `now` exactly when `now − lastRepTime >
minRepDuration`; a lockout entry failing that debounce check, or a call
that stays in lockout, leaves `repCount` (and `lastRepTime`) unchanged —
hence two lockout entries closer than `minRepDuration` count once. -/
theorem C1_lockout_rep_counting (f : ℚ → ℚ → ℚ) (pose : Pose)
    (config : JerkFSMConfig) (now : ℚ) (s : JerkFSMState)
    (hconf : hasConfidentKeypoints pose requiredKeypoints config.minConfidence = true)
    (hlock : (classifyPhase f pose config s).1 = JerkPhase.lockout) :
    (s.currentPhase ≠ JerkPhase.lockout →
      (now - s.lastRepTime > config.minRepDuration →
        (processJerkMovement f pose config now s).2.repCount = s.repCount + 1 ∧
        (processJerkMovement f pose config now s).2.lastRepTime = now) ∧
      (¬ now - s.lastRepTime > config.minRepDuration →
        (processJerkMovement f pose config now s).2.repCount = s.repCount ∧
        (processJerkMovement f pose config now s).2.lastRepTime = s.lastRepTime)) ∧
    (s.currentPhase = JerkPhase.lockout →
      (processJerkMovement f pose config now s).2.repCount = s.repCount ∧
      (processJerkMovement f pose config now s).2.lastRepTime = s.lastRepTime) := by
  obtain ⟨-, -, -, hsame, htrans⟩ := process_spec f pose config now s hconf
  constructor
  · intro hne
    have hdiff : (classifyPhase f pose config s).1 ≠ s.currentPhase := by
      rw [hlock]
      exact fun hx => hne hx.symm
    obtain ⟨-, hlockpart, -⟩ := htrans hdiff
    obtain ⟨hyes, hno⟩ := hlockpart hlock
    exact ⟨fun hdeb => ⟨(hyes hdeb).1, (hyes hdeb).2.1⟩,
           fun hdeb => ⟨(hno hdeb).1, (hno hdeb).2.1⟩⟩
  · intro heq
    have h := hsame (by rw [hlock, heq])
    exact ⟨h.1, h.2.1⟩

/-- C1 witness: at the lockout fixture, from the initial state at time
`1000` (debounce gap `1000 > 500`), the counter goes to `1` and
`lastRepTime` to `1000`. -/
theorem C1_lockout_rep_counting_witness :
    (processJerkMovement atan2Mock lockoutPose defaultJerkFSMConfig 1000
      initialJerkFSMState).2.repCount = initialJerkFSMState.repCount + 1 ∧
    (processJerkMovement atan2Mock lockoutPose defaultJerkFSMConfig 1000
      initialJerkFSMState).2.lastRepTime = 1000 := by
  have h := C1_lockout_rep_counting atan2Mock lockoutPose defaultJerkFSMConfig 1000
    initialJerkFSMState lockoutPose_confident (lockoutPose_classify initialJerkFSMState)
  have hne : initialJerkFSMState.currentPhase ≠ JerkPhase.lockout := by
    simp [initialJerkFSMState]
  have hdeb : (1000 : ℚ) - initialJerkFSMState.lastRepTime >
      defaultJerkFSMConfig.minRepDuration := by
    norm_num [initialJerkFSMState, defaultJerkFSMConfig]
  exact (h.1 hne).1 hdeb

/-- C2: if any landmark of the fixed required set is missing from the
pose or scores below `minConfidence`, the classifier call is a complete
no-op: it returns the incoming `repCount` and the state unchanged in
every field. -/
theorem C2_low_confidence_freezes (f : ℚ → ℚ → ℚ) (pose : Pose)
    (config : JerkFSMConfig) (now : ℚ) (s : JerkFSMState) (name : String)
    (hmem : name ∈ requiredKeypoints)
    (hbad : getKeypoint pose name = none ∨
      ∃ kp, getKeypoint pose name = some kp ∧ scoreOrZero kp < config.minConfidence) :
    processJerkMovement f pose config now s = (s.repCount, s) := by
  have hck : confidentKeypoint pose name config.minConfidence = false := by
    rcases hbad with hnone | ⟨kp, hkp, hlow⟩
    · simp [confidentKeypoint, hnone]
    · simp [confidentKeypoint, hkp, hlow]
  have hguard : hasConfidentKeypoints pose requiredKeypoints config.minConfidence = false := by
    unfold hasConfidentKeypoints
    split
    · rfl
    · rw [List.all_eq_false]
      exact ⟨name, hmem, by simp [hck]⟩
  exact process_notConfident f pose config now s hguard

/-- C2 witness: a pose with no keypoints at all misses `"left_wrist"`,
so the call returns `(repCount, state)` unchanged. -/
theorem C2_low_confidence_freezes_witness :
    processJerkMovement atan2Mock emptyPose defaultJerkFSMConfig 0 initialJerkFSMState =
      (initialJerkFSMState.repCount, initialJerkFSMState) := by
  refine C2_low_confidence_freezes atan2Mock emptyPose defaultJerkFSMConfig 0
    initialJerkFSMState "left_wrist" (by simp [requiredKeypoints]) (Or.inl rfl)

/-- Every single classifier call leaves `repCount` unchanged or raises it
by exactly `1`. -/
lemma repCount_step (f : ℚ → ℚ → ℚ) (pose : Pose) (config : JerkFSMConfig)
    (now : ℚ) (s : JerkFSMState) :
    (processJerkMovement f pose config now s).2.repCount = s.repCount ∨
    (processJerkMovement f pose config now s).2.repCount = s.repCount + 1 := by
  by_cases hconf : hasConfidentKeypoints pose requiredKeypoints config.minConfidence = true
  · obtain ⟨-, -, -, hsame, htrans⟩ := process_spec f pose config now s hconf
    by_cases hne : (classifyPhase f pose config s).1 = s.currentPhase
    · exact Or.inl (hsame hne).1
    · obtain ⟨-, hlockpart, hother⟩ := htrans hne
      by_cases hlock : (classifyPhase f pose config s).1 = JerkPhase.lockout
      · obtain ⟨hyes, hno⟩ := hlockpart hlock
        by_cases hdeb : now - s.lastRepTime > config.minRepDuration
        · exact Or.inr (hyes hdeb).1
        · exact Or.inl (hno hdeb).1
      · exact Or.inl (hother hlock).1
  · rw [Bool.not_eq_true] at hconf
    rw [process_notConfident f pose config now s hconf]
    exact Or.inl rfl

/-- `repCount` never decreases along a fold of classifier calls. -/
lemma runJerk_mono (f : ℚ → ℚ → ℚ) (config : JerkFSMConfig)
    (inputs : List (Pose × ℚ)) (s : JerkFSMState) :
    s.repCount ≤ (runJerk f config inputs s).repCount := by
  induction inputs generalizing s with
  | nil => simp [runJerk]
  | cons i rest ih =>
    have hstep : s.repCount ≤ (processJerkMovement f i.1 config i.2 s).2.repCount := by
      rcases repCount_step f i.1 config i.2 s with h | h <;> omega
    calc s.repCount ≤ (processJerkMovement f i.1 config i.2 s).2.repCount := hstep
      _ ≤ (runJerk f config rest (processJerkMovement f i.1 config i.2 s).2).repCount :=
          ih _
      _ = (runJerk f config (i :: rest) s).repCount := by
          simp [runJerk, List.foldl]

/-- C3: per call, `repCount` stays equal or increases by exactly `1`;
across any sequence of calls (in particular from the initial state) it is
monotonically non-decreasing. -/
theorem C3_repCount_monotone :
    (∀ (f : ℚ → ℚ → ℚ) (pose : Pose) (config : JerkFSMConfig) (now : ℚ)
      (s : JerkFSMState),
      (processJerkMovement f pose config now s).2.repCount = s.repCount ∨
      (processJerkMovement f pose config now s).2.repCount = s.repCount + 1) ∧
    (∀ (f : ℚ → ℚ → ℚ) (config : JerkFSMConfig) (inputs : List (Pose × ℚ))
      (s : JerkFSMState),
      s.repCount ≤ (runJerk f config inputs s).repCount) :=
  ⟨repCount_step, runJerk_mono⟩

/-- C4 (code bug): at the dip fixture and `dipState`, the lockout and
drive predicates are false and the dip predicate is true on the incoming
state (knee angle dropped `170 → 100`, beyond the threshold `15`, and is
below `170`), so per the spec the classifier must return the dip phase;
the code instead returns unknown, because `detectDrivePhase` has already
overwritten the cached knee angle with the current frame's angle before
`detectDipPhase` reads it, making the dip delta `0` on every
guard-passing call. -/
theorem C4_dip_detection_unreachable :
    (detectLockoutPhase atan2Mock dipPose defaultJerkFSMConfig dipState).1 = false ∧
    (detectDrivePhase atan2Mock dipPose defaultJerkFSMConfig dipState).1 = false ∧
    (detectDipPhase atan2Mock dipPose defaultJerkFSMConfig dipState).1 = true ∧
    hasConfidentKeypoints dipPose requiredKeypoints
      defaultJerkFSMConfig.minConfidence = true ∧
    (processJerkMovement atan2Mock dipPose defaultJerkFSMConfig 1000
      dipState).2.currentPhase = JerkPhase.unknown := by
  refine ⟨dipPose_not_lockout dipState, dipPose_not_drive dipState,
    dipPose_dip_on_dipState, dipPose_confident, ?_⟩
  obtain ⟨-, hphase, -⟩ := process_spec atan2Mock dipPose defaultJerkFSMConfig 1000
    dipState dipPose_confident
  rw [hphase, dipPose_classify]

/-- C5 counterexample: at the lockout fixture with `c5State` (current
phase dip, validity flag still true, last rep `100` ms ago) the call
performs a Dip→Lockout transition whose debounce check fails: `repCount`
is not incremented and the transition is not canonical (Dip→Lockout is
not among Rack→Dip, Dip→Drive, Drive→Lockout), so the claim requires
`isValidRep = false`; the code leaves the stale `true` in place. -/
theorem C5_validity_cex :
    hasConfidentKeypoints lockoutPose requiredKeypoints
      defaultJerkFSMConfig.minConfidence = true ∧
    (classifyPhase atan2Mock lockoutPose defaultJerkFSMConfig c5State).1 =
      JerkPhase.lockout ∧
    c5State.currentPhase = JerkPhase.dip ∧
    (processJerkMovement atan2Mock lockoutPose defaultJerkFSMConfig 1000
      c5State).2.repCount = c5State.repCount ∧
    (processJerkMovement atan2Mock lockoutPose defaultJerkFSMConfig 1000
      c5State).2.isValidRep = true := by
  refine ⟨lockoutPose_confident, lockoutPose_classify c5State, rfl, ?_, ?_⟩ <;>
  · obtain ⟨-, -, -, -, htrans⟩ := process_spec atan2Mock lockoutPose
      defaultJerkFSMConfig 1000 c5State lockoutPose_confident
    obtain ⟨-, hlockpart, -⟩ := htrans (by
      rw [lockoutPose_classify c5State]
      simp [c5State, initialJerkFSMState])
    obtain ⟨-, hno⟩ := hlockpart (lockoutPose_classify c5State)
    have hdeb : ¬ (1000 : ℚ) - c5State.lastRepTime >
        defaultJerkFSMConfig.minRepDuration := by
      norm_num [c5State, initialJerkFSMState, defaultJerkFSMConfig]
    obtain ⟨h1, -, h3⟩ := hno hdeb
    first
      | exact h1
      | (rw [h3]; rfl)

/-- C5 amended: on a guard-passing transition, a lockout entry that
passes the debounce check sets `isValidRep := true` (together with the
increment), a lockout entry that fails it leaves `isValidRep` unchanged
(it is not cleared), and a transition to a non-lockout phase sets
`isValidRep` to true exactly for Rack→Dip and Dip→Drive (the Drive→X
arm of the switch can only be reached with X ≠ Lockout, so it always
writes false). -/
theorem C5_validity_flag (f : ℚ → ℚ → ℚ) (pose : Pose) (config : JerkFSMConfig)
    (now : ℚ) (s : JerkFSMState)
    (hconf : hasConfidentKeypoints pose requiredKeypoints config.minConfidence = true)
    (htrans : (classifyPhase f pose config s).1 ≠ s.currentPhase) :
    ((classifyPhase f pose config s).1 = JerkPhase.lockout →
      (now - s.lastRepTime > config.minRepDuration →
        (processJerkMovement f pose config now s).2.isValidRep = true ∧
        (processJerkMovement f pose config now s).2.repCount = s.repCount + 1) ∧
      (¬ now - s.lastRepTime > config.minRepDuration →
        (processJerkMovement f pose config now s).2.isValidRep = s.isValidRep ∧
        (processJerkMovement f pose config now s).2.repCount = s.repCount)) ∧
    ((classifyPhase f pose config s).1 ≠ JerkPhase.lockout →
      ((processJerkMovement f pose config now s).2.isValidRep = true ↔
        (s.currentPhase = JerkPhase.rack ∧
          (classifyPhase f pose config s).1 = JerkPhase.dip) ∨
        (s.currentPhase = JerkPhase.dip ∧
          (classifyPhase f pose config s).1 = JerkPhase.drive))) := by
  obtain ⟨-, -, -, -, hspec⟩ := process_spec f pose config now s hconf
  obtain ⟨-, hlockpart, hother⟩ := hspec htrans
  constructor
  · intro hlock
    obtain ⟨hyes, hno⟩ := hlockpart hlock
    exact ⟨fun hdeb => ⟨(hyes hdeb).2.2, (hyes hdeb).1⟩,
           fun hdeb => ⟨(hno hdeb).2.2, (hno hdeb).1⟩⟩
  · intro hlock
    exact (hother hlock).2.2

/-- C5 witness: at the lockout fixture from the initial state at time
`1000` the debounce passes and the flag is set. -/
theorem C5_validity_flag_witness :
    (processJerkMovement atan2Mock lockoutPose defaultJerkFSMConfig 1000
      initialJerkFSMState).2.isValidRep = true := by
  have h := C5_validity_flag atan2Mock lockoutPose defaultJerkFSMConfig 1000
    initialJerkFSMState lockoutPose_confident
    (by rw [lockoutPose_classify]; simp [initialJerkFSMState])
  exact ((h.1 (lockoutPose_classify initialJerkFSMState)).1
    (by norm_num [initialJerkFSMState, defaultJerkFSMConfig])).1

/-- C6 counterexample: at the lockout fixture with `c6State` (already in
lockout, `previousPhase = drive`), the computed phase equals the current
phase, so per the claim `previousPhase` must stay `drive`; the code
unconditionally overwrites it with the current phase (`lockout`).
`currentPhase` and `lastTransitionTime` do stay unchanged. -/
theorem C6_no_transition_cex :
    hasConfidentKeypoints lockoutPose requiredKeypoints
      defaultJerkFSMConfig.minConfidence = true ∧
    (classifyPhase atan2Mock lockoutPose defaultJerkFSMConfig c6State).1 =
      c6State.currentPhase ∧
    (processJerkMovement atan2Mock lockoutPose defaultJerkFSMConfig 1000
      c6State).2.currentPhase = c6State.currentPhase ∧
    (processJerkMovement atan2Mock lockoutPose defaultJerkFSMConfig 1000
      c6State).2.lastTransitionTime = c6State.lastTransitionTime ∧
    (processJerkMovement atan2Mock lockoutPose defaultJerkFSMConfig 1000
      c6State).2.previousPhase ≠ c6State.previousPhase := by
  have hcur : (classifyPhase atan2Mock lockoutPose defaultJerkFSMConfig c6State).1 =
      c6State.currentPhase := by
    rw [lockoutPose_classify c6State]
    rfl
  obtain ⟨-, hphase, hprev, hsame, -⟩ := process_spec atan2Mock lockoutPose
    defaultJerkFSMConfig 1000 c6State lockoutPose_confident
  refine ⟨lockoutPose_confident, hcur, ?_, (hsame hcur).2.2.1, ?_⟩
  · rw [hphase, hcur]
  · rw [hprev]
    simp [c6State, initialJerkFSMState]

/-- C6 amended: on every guard-passing call, `previousPhase` is set to
the old `currentPhase` and `currentPhase` to the computed phase — also
when they coincide, which collapses `previousPhase` onto `currentPhase`
instead of leaving it untouched; `lastTransitionTime` is set to `now`
exactly on a phase change, and `lastTransitionTime`, `repCount`,
`lastRepTime` and `isValidRep` are all unchanged when the computed phase
equals the current one. -/
theorem C6_transition_handling (f : ℚ → ℚ → ℚ) (pose : Pose)
    (config : JerkFSMConfig) (now : ℚ) (s : JerkFSMState)
    (hconf : hasConfidentKeypoints pose requiredKeypoints config.minConfidence = true) :
    (processJerkMovement f pose config now s).2.previousPhase = s.currentPhase ∧
    (processJerkMovement f pose config now s).2.currentPhase =
      (classifyPhase f pose config s).1 ∧
    ((classifyPhase f pose config s).1 ≠ s.currentPhase →
      (processJerkMovement f pose config now s).2.lastTransitionTime = now) ∧
    ((classifyPhase f pose config s).1 = s.currentPhase →
      (processJerkMovement f pose config now s).2.currentPhase = s.currentPhase ∧
      (processJerkMovement f pose config now s).2.lastTransitionTime =
        s.lastTransitionTime ∧
      (processJerkMovement f pose config now s).2.repCount = s.repCount ∧
      (processJerkMovement f pose config now s).2.lastRepTime = s.lastRepTime ∧
      (processJerkMovement f pose config now s).2.isValidRep = s.isValidRep) := by
  obtain ⟨-, hphase, hprev, hsame, htrans⟩ := process_spec f pose config now s hconf
  refine ⟨hprev, hphase, fun hne => (htrans hne).1, fun heq => ?_⟩
  obtain ⟨h1, h2, h3, h4⟩ := hsame heq
  exact ⟨by rw [hphase, heq], h3, h1, h2, h4⟩

/-- C6 witness: at the lockout fixture from the initial (unknown) state,
the transition records `previousPhase = unknown`, `currentPhase =
lockout` and `lastTransitionTime = 1000`. -/
theorem C6_transition_handling_witness :
    (processJerkMovement atan2Mock lockoutPose defaultJerkFSMConfig 1000
      initialJerkFSMState).2.previousPhase = initialJerkFSMState.currentPhase ∧
    (processJerkMovement atan2Mock lockoutPose defaultJerkFSMConfig 1000
      initialJerkFSMState).2.lastTransitionTime = 1000 := by
  have h := C6_transition_handling atan2Mock lockoutPose defaultJerkFSMConfig 1000
    initialJerkFSMState lockoutPose_confident
  exact ⟨h.1, h.2.2.1 (by rw [lockoutPose_classify]; simp [initialJerkFSMState])⟩

/-- C10 counterexample: the TypeScript `processJerkMovement(pose, config)`
takes neither the FSM state nor the time as arguments — the state lives
in the module-level mutable singleton `jerkFSMState` and the time comes
from `Date.now()` inside the function.  With identical explicit source
arguments (same pose, same config) and even the same clock value, two
different values of that hidden singleton yield different results, so
the classifier's result is not a function of its explicit arguments:
it does keep hidden internal mutable state. -/
theorem C10_hidden_state_cex :
    (processJerkMovement atan2Mock emptyPose defaultJerkFSMConfig 0
      initialJerkFSMState).1 ≠
    (processJerkMovement atan2Mock emptyPose defaultJerkFSMConfig 0
      { initialJerkFSMState with repCount := 1 }).1 := by
  have hguard : hasConfidentKeypoints emptyPose requiredKeypoints
      defaultJerkFSMConfig.minConfidence = false := rfl
  rw [process_notConfident atan2Mock emptyPose defaultJerkFSMConfig 0
    initialJerkFSMState hguard,
    process_notConfident atan2Mock emptyPose defaultJerkFSMConfig 0
    { initialJerkFSMState with repCount := 1 } hguard]
  simp [initialJerkFSMState]

/-- C10 amended: once the module singleton and the clock are passed
explicitly, the classifier is deterministic — equal pose, state, config
and time give equal returned `repCount`, equal phase and equal
post-state. -/
theorem C10_determinism (f : ℚ → ℚ → ℚ) (p1 p2 : Pose)
    (c1 c2 : JerkFSMConfig) (t1 t2 : ℚ) (s1 s2 : JerkFSMState)
    (hp : p1 = p2) (hc : c1 = c2) (ht : t1 = t2) (hs : s1 = s2) :
    (processJerkMovement f p1 c1 t1 s1).1 = (processJerkMovement f p2 c2 t2 s2).1 ∧
    (processJerkMovement f p1 c1 t1 s1).2.currentPhase =
      (processJerkMovement f p2 c2 t2 s2).2.currentPhase ∧
    (processJerkMovement f p1 c1 t1 s1).2 = (processJerkMovement f p2 c2 t2 s2).2 := by
  subst hp
  subst hc
  subst ht
  subst hs
  exact ⟨rfl, rfl, rfl⟩

/-- C10 witness: determinism instantiated at the lockout fixture. -/
theorem C10_determinism_witness :
    (processJerkMovement atan2Mock lockoutPose defaultJerkFSMConfig 1000
      initialJerkFSMState).1 =
    (processJerkMovement atan2Mock lockoutPose defaultJerkFSMConfig 1000
      initialJerkFSMState).1 :=
  (C10_determinism atan2Mock lockoutPose lockoutPose defaultJerkFSMConfig
    defaultJerkFSMConfig 1000 1000 initialJerkFSMState initialJerkFSMState
    rfl rfl rfl rfl).1

/-- Folding the per-issue deduction subtracts the total penalty. -/
lemma foldl_penalty (issues : List FormIssue) (acc : ℤ) :
    issues.foldl (fun score issue => score - severityPenalty issue.severity) acc =
      acc - totalPenalty issues := by
  induction issues generalizing acc with
  | nil => simp [totalPenalty]
  | cons i rest ih =>
    simp only [List.foldl, totalPenalty, List.map, List.sum_cons] at *
    rw [ih]
    ring

/-- C7: for every pose and phase, `analyzeForm` returns exactly
`clamp₍₀,₁₀₀₎ (100 − Σ penalties)` with penalties 5/10/20 per
Low/Moderate/High issue, and the score therefore always lies in
`[0, 100]`. -/
theorem C7_score_formula (f : ℚ → ℚ → ℚ) (pose : Pose) (phase : JerkPhase)
    (minConfidence now : ℚ) :
    (analyzeForm f pose phase minConfidence now).overallScore =
      max 0 (min 100 (100 - totalPenalty (analyzeForm f pose phase minConfidence now).issues)) ∧
    0 ≤ (analyzeForm f pose phase minConfidence now).overallScore ∧
    (analyzeForm f pose phase minConfidence now).overallScore ≤ 100 := by
  refine ⟨?_, ?_, ?_⟩
  · simp only [analyzeForm, foldl_penalty]
  · simp only [analyzeForm]
    exact le_max_left 0 _
  · simp only [analyzeForm]
    exact max_le (by norm_num) (min_le_left _ _)

lemma c8Pose_gk_ls : getKeypoint c8Pose "left_shoulder" = some (mkKp "left_shoulder" 100 300 (9/10)) := rfl

lemma c8Pose_gk_rs : getKeypoint c8Pose "right_shoulder" = some (mkKp "right_shoulder" 200 300 (9/10)) := rfl

lemma c8Pose_gk_le : getKeypoint c8Pose "left_elbow" = some (mkKp "left_elbow" 100 220 0) := rfl

lemma c8Pose_gk_re : getKeypoint c8Pose "right_elbow" = some (mkKp "right_elbow" 200 220 (9/10)) := rfl

lemma c8Pose_gk_lw : getKeypoint c8Pose "left_wrist" = some (mkKp "left_wrist" 100 100 (9/10)) := rfl

lemma c8Pose_gk_rw : getKeypoint c8Pose "right_wrist" = some (mkKp "right_wrist" 200 160 (9/10)) := rfl

/-- C8 counterexample: in `c8Pose` the four landmarks that the lockout
uneven-wrists check needs (both wrists, both shoulders) are all present
at confidence `9/10 ≥ 3/10`, and its geometric condition fires (wrist
height difference `60` exceeds `shoulderWidth · 0.1 = 10`), so under the
claim's per-check confidence rule the check must still run and produce
`lockout_uneven_wrists`; but because the unrelated left elbow scores `0`,
the rule set's single up-front guard discards every check and the
analysis returns no issues at all. -/
theorem C8_per_check_cex :
    getKeypoint c8Pose "left_wrist" = some (mkKp "left_wrist" 100 100 (9/10)) ∧
    getKeypoint c8Pose "right_wrist" = some (mkKp "right_wrist" 200 160 (9/10)) ∧
    getKeypoint c8Pose "left_shoulder" = some (mkKp "left_shoulder" 100 300 (9/10)) ∧
    getKeypoint c8Pose "right_shoulder" = some (mkKp "right_shoulder" 200 300 (9/10)) ∧
    (3/10 : ℚ) ≤ scoreOrZero (mkKp "left_wrist" 100 100 (9/10)) ∧
    |(100 : ℚ) - 160| > |(100 : ℚ) - 200| * (1/10) ∧
    analyzeLockoutPhase atan2Mock c8Pose (3/10) = [] := by
  refine ⟨c8Pose_gk_lw, c8Pose_gk_rw, c8Pose_gk_ls, c8Pose_gk_rs, ?_, ?_, ?_⟩
  · norm_num [scoreOrZero_mkKp]
  · norm_num
  · norm_num [analyzeLockoutPhase, c8Pose_gk_ls, c8Pose_gk_rs, c8Pose_gk_le,
      c8Pose_gk_re, c8Pose_gk_lw, c8Pose_gk_rw, scoreOrZero_mkKp]

/-- C8 amended: the confidence requirement of a form-analysis rule set is
per rule set, not per check — if any landmark of the rule set's fixed
required set is missing or below `minConfidence`, every check of that
rule set is skipped (empty result); when the whole required set is
confident, every check runs, and each check's issue appears exactly when
its own geometric condition fires (shown for all four rule sets:
lockout, rack, dip and drive). -/
theorem C8_rule_set_confidence (f : ℚ → ℚ → ℚ) (pose : Pose) (m : ℚ) :
    (∀ name ∈ lockoutAnalysisKeypoints, confidentKeypoint pose name m = false →
      analyzeLockoutPhase f pose m = []) ∧
    (∀ name ∈ rackAnalysisKeypoints, confidentKeypoint pose name m = false →
      analyzeRackPosition pose m = []) ∧
    (∀ kls krs kle kre klw krw : KeyPoint,
      getKeypoint pose "left_shoulder" = some kls →
      getKeypoint pose "right_shoulder" = some krs →
      getKeypoint pose "left_elbow" = some kle →
      getKeypoint pose "right_elbow" = some kre →
      getKeypoint pose "left_wrist" = some klw →
      getKeypoint pose "right_wrist" = some krw →
      allConfident pose lockoutAnalysisKeypoints m = true →
      ((lockoutLeftArmIssue ∈ analyzeLockoutPhase f pose m ↔
         calculateAngle f kls.pt kle.pt klw.pt < 160) ∧
       (lockoutRightArmIssue ∈ analyzeLockoutPhase f pose m ↔
         calculateAngle f krs.pt kre.pt krw.pt < 160) ∧
       (lockoutUnevenWristsIssue ∈ analyzeLockoutPhase f pose m ↔
         |klw.y - krw.y| > |kls.x - krs.x| * (1/10)) ∧
       (lockoutLeftArmVerticalIssue ∈ analyzeLockoutPhase f pose m ↔
         |f (klw.x - kls.x) (kls.y - klw.y)| > 15) ∧
       (lockoutRightArmVerticalIssue ∈ analyzeLockoutPhase f pose m ↔
         |f (krw.x - krs.x) (krs.y - krw.y)| > 15))) ∧
    (∀ kls krs kle kre klw krw klh krh : KeyPoint,
      getKeypoint pose "left_shoulder" = some kls →
      getKeypoint pose "right_shoulder" = some krs →
      getKeypoint pose "left_elbow" = some kle →
      getKeypoint pose "right_elbow" = some kre →
      getKeypoint pose "left_wrist" = some klw →
      getKeypoint pose "right_wrist" = some krw →
      getKeypoint pose "left_hip" = some klh →
      getKeypoint pose "right_hip" = some krh →
      allConfident pose rackAnalysisKeypoints m = true →
      ((rackLeftElbowIssue ∈ analyzeRackPosition pose m ↔
         |kle.x - klh.x| > |kls.x - krs.x| * (4/10)) ∧
       (rackRightElbowIssue ∈ analyzeRackPosition pose m ↔
         |kre.x - krh.x| > |kls.x - krs.x| * (4/10)) ∧
       (rackLeftWristIssue ∈ analyzeRackPosition pose m ↔
         |klw.y - kls.y| > |kls.x - krs.x| * (2/10)) ∧
       (rackRightWristIssue ∈ analyzeRackPosition pose m ↔
         |krw.y - krs.y| > |kls.x - krs.x| * (2/10)))) ∧
    (∀ name ∈ dipAnalysisKeypoints, confidentKeypoint pose name m = false →
      analyzeDipPhase f pose m = []) ∧
    (∀ name ∈ driveAnalysisKeypoints, confidentKeypoint pose name m = false →
      analyzeDrivePhase f pose m = []) ∧
    (∀ klh krh klk krk kla kra kls krs : KeyPoint,
      getKeypoint pose "left_hip" = some klh →
      getKeypoint pose "right_hip" = some krh →
      getKeypoint pose "left_knee" = some klk →
      getKeypoint pose "right_knee" = some krk →
      getKeypoint pose "left_ankle" = some kla →
      getKeypoint pose "right_ankle" = some kra →
      getKeypoint pose "left_shoulder" = some kls →
      getKeypoint pose "right_shoulder" = some krs →
      allConfident pose dipAnalysisKeypoints m = true →
      ((dipTooShallowIssue ∈ analyzeDipPhase f pose m ↔
         calculateAngle f klh.pt klk.pt kla.pt > 160) ∧
       (dipTooDeepIssue ∈ analyzeDipPhase f pose m ↔
         calculateAngle f klh.pt klk.pt kla.pt < 120) ∧
       (dipUnevenKneesIssue ∈ analyzeDipPhase f pose m ↔
         |calculateAngle f klh.pt klk.pt kla.pt -
           calculateAngle f krh.pt krk.pt kra.pt| > 15) ∧
       (dipLeaningForwardIssue ∈ analyzeDipPhase f pose m ↔
         calculateAngle f
           ⟨(kls.x + krs.x) / 2, (kls.y + krs.y) / 2⟩
           ⟨(klh.x + krh.x) / 2, (klh.y + krh.y) / 2⟩
           ⟨(klh.x + krh.x) / 2, (klh.y + krh.y) / 2 - 100⟩ < 75))) ∧
    (∀ kls krs kle kre klw krw klh krh klk krk : KeyPoint,
      getKeypoint pose "left_shoulder" = some kls →
      getKeypoint pose "right_shoulder" = some krs →
      getKeypoint pose "left_elbow" = some kle →
      getKeypoint pose "right_elbow" = some kre →
      getKeypoint pose "left_wrist" = some klw →
      getKeypoint pose "right_wrist" = some krw →
      getKeypoint pose "left_hip" = some klh →
      getKeypoint pose "right_hip" = some krh →
      getKeypoint pose "left_knee" = some klk →
      getKeypoint pose "right_knee" = some krk →
      allConfident pose driveAnalysisKeypoints m = true →
      ((driveUnevenArmsIssue ∈ analyzeDrivePhase f pose m ↔
         |calculateAngle f kls.pt kle.pt klw.pt -
           calculateAngle f krs.pt kre.pt krw.pt| > 20) ∧
       (driveIncompleteLegIssue ∈ analyzeDrivePhase f pose m ↔
         (calculateAngle f klh.pt klk.pt ⟨klk.x, klk.y + 100⟩ < 160 ∨
          calculateAngle f krh.pt krk.pt ⟨krk.x, krk.y + 100⟩ < 160)))) := by
  refine ⟨?_, ?_, ?_, ?_, ?_, ?_, ?_, ?_⟩
  · intro name hmem hbad
    unfold analyzeLockoutPhase
    split
    · rename_i kls krs kle kre klw krw hls hrs hle hre hlw hrw
      rw [if_pos]
      simp only [lockoutAnalysisKeypoints, List.mem_cons, List.not_mem_nil, or_false] at hmem
      rcases hmem with rfl | rfl | rfl | rfl | rfl | rfl <;>
        simp_all [confidentKeypoint]
    · rfl
  · intro name hmem hbad
    unfold analyzeRackPosition
    split
    · rename_i kls krs kle kre klw krw klh krh hls hrs hle hre hlw hrw hlh hrh
      rw [if_pos]
      simp only [rackAnalysisKeypoints, List.mem_cons, List.not_mem_nil, or_false] at hmem
      rcases hmem with rfl | rfl | rfl | rfl | rfl | rfl | rfl | rfl <;>
        simp_all [confidentKeypoint]
    · rfl
  · intro kls krs kle kre klw krw hls hrs hle hre hlw hrw hconf
    simp only [allConfident, lockoutAnalysisKeypoints, List.all_cons, List.all_nil,
      Bool.and_eq_true, Bool.and_true] at hconf
    rw [confidentKeypoint, hls] at hconf
    rw [confidentKeypoint, hrs] at hconf
    rw [confidentKeypoint, hle] at hconf
    rw [confidentKeypoint, hre] at hconf
    rw [confidentKeypoint, hlw] at hconf
    rw [confidentKeypoint, hrw] at hconf
    simp only [decide_eq_true_eq] at hconf
    obtain ⟨h1, h2, h3, h4, h5, h6⟩ := hconf
    unfold analyzeLockoutPhase
    rw [hls, hrs, hle, hre, hlw, hrw]
    simp only []
    rw [if_neg (by simp [h1, h2, h3, h4, h5, h6])]
    split_ifs <;>
      simp_all [lockoutLeftArmIssue, lockoutRightArmIssue, lockoutUnevenWristsIssue,
        lockoutLeftArmVerticalIssue, lockoutRightArmVerticalIssue]
  · intro kls krs kle kre klw krw klh krh hls hrs hle hre hlw hrw hlh hrh hconf
    simp only [allConfident, rackAnalysisKeypoints, List.all_cons, List.all_nil,
      Bool.and_eq_true, Bool.and_true] at hconf
    rw [confidentKeypoint, hls] at hconf
    rw [confidentKeypoint, hrs] at hconf
    rw [confidentKeypoint, hle] at hconf
    rw [confidentKeypoint, hre] at hconf
    rw [confidentKeypoint, hlw] at hconf
    rw [confidentKeypoint, hrw] at hconf
    rw [confidentKeypoint, hlh] at hconf
    rw [confidentKeypoint, hrh] at hconf
    simp only [decide_eq_true_eq] at hconf
    obtain ⟨h1, h2, h3, h4, h5, h6, h7, h8⟩ := hconf
    unfold analyzeRackPosition
    rw [hls, hrs, hle, hre, hlw, hrw, hlh, hrh]
    simp only []
    rw [if_neg (by simp [h1, h2, h3, h4, h5, h6, h7, h8])]
    split_ifs <;>
      simp_all [rackLeftElbowIssue, rackRightElbowIssue, rackLeftWristIssue,
        rackRightWristIssue]
  · intro name hmem hbad
    unfold analyzeDipPhase
    split
    · rename_i klh krh klk krk kla kra kls krs hlh hrh hlk hrk hla hra hls hrs
      rw [if_pos]
      simp only [dipAnalysisKeypoints, List.mem_cons, List.not_mem_nil, or_false] at hmem
      rcases hmem with rfl | rfl | rfl | rfl | rfl | rfl | rfl | rfl <;>
        simp_all [confidentKeypoint]
    · rfl
  · intro name hmem hbad
    unfold analyzeDrivePhase
    split
    · rename_i kls krs kle kre klw krw klh krh klk krk hls hrs hle hre hlw hrw hlh hrh hlk hrk
      rw [if_pos]
      simp only [driveAnalysisKeypoints, List.mem_cons, List.not_mem_nil, or_false] at hmem
      rcases hmem with rfl | rfl | rfl | rfl | rfl | rfl | rfl | rfl | rfl | rfl <;>
        simp_all [confidentKeypoint]
    · rfl
  · intro klh krh klk krk kla kra kls krs hlh hrh hlk hrk hla hra hls hrs hconf
    simp only [allConfident, dipAnalysisKeypoints, List.all_cons, List.all_nil,
      Bool.and_eq_true, Bool.and_true] at hconf
    rw [confidentKeypoint, hlh] at hconf
    rw [confidentKeypoint, hrh] at hconf
    rw [confidentKeypoint, hlk] at hconf
    rw [confidentKeypoint, hrk] at hconf
    rw [confidentKeypoint, hla] at hconf
    rw [confidentKeypoint, hra] at hconf
    rw [confidentKeypoint, hls] at hconf
    rw [confidentKeypoint, hrs] at hconf
    simp only [decide_eq_true_eq] at hconf
    obtain ⟨h1, h2, h3, h4, h5, h6, h7, h8⟩ := hconf
    unfold analyzeDipPhase
    rw [hlh, hrh, hlk, hrk, hla, hra, hls, hrs]
    simp only []
    rw [if_neg (by simp [h1, h2, h3, h4, h5, h6, h7, h8])]
    split_ifs <;>
      simp_all [dipTooShallowIssue, dipTooDeepIssue, dipUnevenKneesIssue,
        dipLeaningForwardIssue]
  · intro kls krs kle kre klw krw klh krh klk krk hls hrs hle hre hlw hrw hlh hrh hlk hrk hconf
    simp only [allConfident, driveAnalysisKeypoints, List.all_cons, List.all_nil,
      Bool.and_eq_true, Bool.and_true] at hconf
    rw [confidentKeypoint, hls] at hconf
    rw [confidentKeypoint, hrs] at hconf
    rw [confidentKeypoint, hle] at hconf
    rw [confidentKeypoint, hre] at hconf
    rw [confidentKeypoint, hlw] at hconf
    rw [confidentKeypoint, hrw] at hconf
    rw [confidentKeypoint, hlh] at hconf
    rw [confidentKeypoint, hrh] at hconf
    rw [confidentKeypoint, hlk] at hconf
    rw [confidentKeypoint, hrk] at hconf
    simp only [decide_eq_true_eq] at hconf
    obtain ⟨h1, h2, h3, h4, h5, h6, h7, h8, h9, h10⟩ := hconf
    unfold analyzeDrivePhase
    rw [hls, hrs, hle, hre, hlw, hrw, hlh, hrh, hlk, hrk]
    simp only []
    rw [if_neg (by simp [h1, h2, h3, h4, h5, h6, h7, h8, h9, h10])]
    split_ifs <;>
      simp_all [driveUnevenArmsIssue, driveIncompleteLegIssue]

/-- The lockout rule set's six landmarks are all confident in the
lockout fixture. -/
lemma allConfident_lockoutPose :
    allConfident lockoutPose lockoutAnalysisKeypoints (3/10) = true := by
  norm_num [allConfident, lockoutAnalysisKeypoints, confidentKeypoint,
    lockoutPose_gk_ls, lockoutPose_gk_rs, lockoutPose_gk_le, lockoutPose_gk_re,
    lockoutPose_gk_lw, lockoutPose_gk_rw, scoreOrZero_mkKp, List.all]

/-- C8 witness: with the fully confident lockout fixture, the
uneven-wrists check runs and its issue appears exactly when its
geometric condition holds (here it does not: both wrists are at height
`130`). -/
theorem C8_rule_set_confidence_witness :
    (lockoutUnevenWristsIssue ∈ analyzeLockoutPhase atan2Mock lockoutPose (3/10) ↔
      |(130 : ℚ) - 130| > |(100 : ℚ) - 200| * (1/10)) := by
  have h := ((C8_rule_set_confidence atan2Mock lockoutPose (3/10)).2.2.1
    (mkKp "left_shoulder" 100 300 (9/10)) (mkKp "right_shoulder" 200 300 (9/10))
    (mkKp "left_elbow" 100 220 (9/10)) (mkKp "right_elbow" 200 220 (9/10))
    (mkKp "left_wrist" 100 130 (9/10)) (mkKp "right_wrist" 200 130 (9/10))
    lockoutPose_gk_ls lockoutPose_gk_rs lockoutPose_gk_le lockoutPose_gk_re
    lockoutPose_gk_lw lockoutPose_gk_rw allConfident_lockoutPose).2.2.1
  exact h

/-- Uniform smoothing with a non-positive factor is the identity. -/
lemma smoothKeypoint_nonpos (kp : KeyPoint) (pkps : List KeyPoint) (α : ℚ)
    (h : α ≤ 0) : smoothKeypoint kp pkps α = kp := by
  unfold smoothKeypoint
  rw [if_pos (Or.inr h)]

/-- Confidence-weighted smoothing with a non-positive factor is the
identity. -/
lemma confidenceWeightedSmoothKeypoint_nonpos (kp : KeyPoint)
    (pkps : List KeyPoint) (α m : ℚ) (h : α ≤ 0) :
    confidenceWeightedSmoothKeypoint kp pkps α m = kp := by
  unfold confidenceWeightedSmoothKeypoint
  rw [if_pos (Or.inr h)]

/-- C9: smoothing with an empty history buffer, or with a smoothing
factor `α ≤ 0`, returns the input pose unchanged (every keypoint's
position, score and name), in both the uniform and the
confidence-weighted mode. -/
theorem C9_smoothing_identity (currentPose : Pose) (previousPoses : List Pose)
    (smoothingFactor : ℚ) (useConfidenceWeighting : Bool) (minConfidence : ℚ)
    (h : previousPoses = [] ∨ smoothingFactor ≤ 0) :
    smoothPose currentPose previousPoses smoothingFactor useConfidenceWeighting
      minConfidence = currentPose := by
  by_cases hcond : previousPoses = [] ∨ currentPose.keypoints = []
  · unfold smoothPose
    rw [if_pos hcond]
  · have hα : smoothingFactor ≤ 0 := by
      rcases h with h | h
      · exact absurd (Or.inl h) hcond
      · exact h
    unfold smoothPose
    rw [if_neg hcond]
    have hmap : ∀ kp ∈ currentPose.keypoints,
        (if useConfidenceWeighting then
          confidenceWeightedSmoothKeypoint kp
            (previousPoses.filterMap fun pose =>
              pose.keypoints.find? fun k => decide (k.name = kp.name))
            smoothingFactor minConfidence
        else
          smoothKeypoint kp
            (previousPoses.filterMap fun pose =>
              pose.keypoints.find? fun k => decide (k.name = kp.name))
            smoothingFactor) = kp := by
      intro kp _
      cases useConfidenceWeighting with
      | true => simp [confidenceWeightedSmoothKeypoint_nonpos _ _ _ _ hα]
      | false => simp [smoothKeypoint_nonpos _ _ _ hα]
    have : currentPose.keypoints.map (fun keypoint =>
        let previousKeypoints := previousPoses.filterMap fun pose =>
          pose.keypoints.find? fun kp => decide (kp.name = keypoint.name)
        if useConfidenceWeighting then
          confidenceWeightedSmoothKeypoint keypoint previousKeypoints
            smoothingFactor minConfidence
        else
          smoothKeypoint keypoint previousKeypoints smoothingFactor) =
        currentPose.keypoints := by
      have hco := List.map_congr_left (l := currentPose.keypoints)
        (g := fun kp : KeyPoint => kp) hmap
      rw [hco, List.map_id']
    rw [this]

/-- C9 witness: with a non-empty history and factor `0`, the small pose
comes back unchanged in confidence-weighted mode. -/
theorem C9_smoothing_identity_witness :
    smoothPose smallPose [smallPoseB] 0 true (3/10) = smallPose :=
  C9_smoothing_identity smallPose [smallPoseB] 0 true (3/10) (Or.inr le_rfl)

/-- A confidently detected keypoint is present. -/
lemma confidentKeypoint_some (pose : Pose) (name : String) (m : ℚ)
    (h : confidentKeypoint pose name m = true) :
    ∃ kp, getKeypoint pose name = some kp := by
  unfold confidentKeypoint at h
  rcases hk : getKeypoint pose name with _ | kp
  · rw [hk] at h
    exact absurd h (by simp)
  · exact ⟨kp, rfl⟩

/-- A passing guard certifies every required keypoint. -/
lemma hasConfident_mem (pose : Pose) (names : List String) (m : ℚ) (name : String)
    (h : hasConfidentKeypoints pose names m = true) (hm : name ∈ names) :
    confidentKeypoint pose name m = true := by
  unfold hasConfidentKeypoints at h
  split at h
  · exact absurd h (by simp)
  · exact List.all_eq_true.mp h name hm

/-- The drive detector caches the current left-knee angle. -/
lemma detectDrivePhase_sets_kneeAngle (f : ℚ → ℚ → ℚ) (pose : Pose)
    (config : JerkFSMConfig) (s : JerkFSMState)
    (klh klk kla kls kle klw krs kre krw : KeyPoint)
    (hlh : getKeypoint pose "left_hip" = some klh)
    (hlk : getKeypoint pose "left_knee" = some klk)
    (hla : getKeypoint pose "left_ankle" = some kla)
    (hls : getKeypoint pose "left_shoulder" = some kls)
    (hle : getKeypoint pose "left_elbow" = some kle)
    (hlw : getKeypoint pose "left_wrist" = some klw)
    (hrs : getKeypoint pose "right_shoulder" = some krs)
    (hre : getKeypoint pose "right_elbow" = some kre)
    (hrw : getKeypoint pose "right_wrist" = some krw) :
    (detectDrivePhase f pose config s).2.kneeAngle =
      calculateAngle f klh.pt klk.pt kla.pt := by
  unfold detectDrivePhase
  rw [hlh, hlk, hla, hls, hle, hlw, hrs, hre, hrw]

/-- Against a state whose cached knee angle already equals the current
frame's knee angle, the dip predicate cannot fire for a non-negative
depth threshold. -/
lemma detectDipPhase_false_after (f : ℚ → ℚ → ℚ) (pose : Pose)
    (config : JerkFSMConfig) (t : JerkFSMState) (klh klk kla : KeyPoint)
    (hlh : getKeypoint pose "left_hip" = some klh)
    (hlk : getKeypoint pose "left_knee" = some klk)
    (hla : getKeypoint pose "left_ankle" = some kla)
    (hka : t.kneeAngle = calculateAngle f klh.pt klk.pt kla.pt)
    (hthr : 0 ≤ config.dipDepthThreshold) :
    (detectDipPhase f pose config t).1 = false := by
  unfold detectDipPhase
  rw [hlh, hlk, hla]
  simp only [hka, sub_self, decide_eq_false_iff_not]
  exact fun h => absurd h.1 (by linarith)

/-- On every guard-passing call with a non-negative `dipDepthThreshold`,
the detector chain can never classify the pose as Dip: the drive
detector (which always runs first when lockout fails) has already
overwritten the cached knee angle with the current frame's value, so the
dip delta the dip detector sees is `0`. -/
lemma classifyPhase_never_dip (f : ℚ → ℚ → ℚ) (pose : Pose)
    (config : JerkFSMConfig) (s : JerkFSMState)
    (hconf : hasConfidentKeypoints pose requiredKeypoints config.minConfidence = true)
    (hthr : 0 ≤ config.dipDepthThreshold) :
    (classifyPhase f pose config s).1 ≠ JerkPhase.dip := by
  have hck : ∀ name ∈ requiredKeypoints,
      ∃ kp, getKeypoint pose name = some kp := by
    intro name hm
    exact confidentKeypoint_some pose name config.minConfidence
      (hasConfident_mem pose requiredKeypoints config.minConfidence name hconf hm)
  obtain ⟨klh, hlh⟩ := hck "left_hip" (by simp [requiredKeypoints])
  obtain ⟨klk, hlk⟩ := hck "left_knee" (by simp [requiredKeypoints])
  obtain ⟨kla, hla⟩ := hck "left_ankle" (by simp [requiredKeypoints])
  obtain ⟨kls, hls⟩ := hck "left_shoulder" (by simp [requiredKeypoints])
  obtain ⟨kle, hle⟩ := hck "left_elbow" (by simp [requiredKeypoints])
  obtain ⟨klw, hlw⟩ := hck "left_wrist" (by simp [requiredKeypoints])
  obtain ⟨krs, hrs⟩ := hck "right_shoulder" (by simp [requiredKeypoints])
  obtain ⟨kre, hre⟩ := hck "right_elbow" (by simp [requiredKeypoints])
  obtain ⟨krw, hrw⟩ := hck "right_wrist" (by simp [requiredKeypoints])
  have hdip : (detectDipPhase f pose config
      (detectDrivePhase f pose config
        (detectLockoutPhase f pose config s).2).2).1 = false :=
    detectDipPhase_false_after f pose config _ klh klk kla hlh hlk hla
      (detectDrivePhase_sets_kneeAngle f pose config _ klh klk kla kls kle klw
        krs kre krw hlh hlk hla hls hle hlw hrs hre hrw)
      hthr
  simp only [classifyPhase]
  split_ifs with h1 h2 h3 h4 <;> simp_all

end Kettlebell
